import Mathlib

/-!
Verification of the session-aware request dispatcher of the stitch-js-sdk
repository (`src/client.js`).  The file contains two client generations:

* `StitchClient` with its dispatch method `_do` (lines 226-304), which
  performs a proactive refresh when the access token is expired and a
  reactive refresh-and-retry when the service reports an invalid session;
* the legacy `BaasClient` with `_doAuthed` (lines 483-541),
  `_refreshToken` (lines 543-579) and `_setAccessToken` (lines 581-586).

Pure data is embedded directly; the stateful dispatch is embedded as a
fuel-indexed function that threads an explicit state (token store plus
counters into the service oracle) and returns the chronological list of
network calls it made together with its result (`none` = out of fuel).

The `auth` module used by `StitchClient` (the Token Store) is not part of
`src/`; following the specification it is modelled from spec sections 4.1
and 4.3 and clearly marked as such below.  Everything else is translated
from `src/client.js`.
-/

deriving instance DecidableEq for Except

namespace Stitch

/-- A stored session, spec section 3: user identity, short-lived access
token (absent is a valid transient state) and long-lived refresh token. -/
structure Session where
  userId : String
  accessToken : Option String
  refreshToken : String
deriving Repr, DecidableEq

/-- Decoded JSON body of a service response.  `errorCode = none` models a
body without an `errorCode` member; `accessToken` is the field read by the
legacy refresh path (`json['accessToken']`, line 575). -/
structure JsonBody where
  error : String := ""
  errorCode : Option String := none
  accessToken : String := ""
deriving Repr, DecidableEq

/-- An HTTP response as the dispatcher observes it: numeric status, the
`Content-Type` header, the raw status text, and the decoded JSON body
(consulted only when the content type is the JSON type). -/
structure Response where
  status : Nat
  contentType : String
  statusText : String := ""
  json : JsonBody := {}
deriving Repr, DecidableEq

/-- `common.JSONTYPE`, compared against the `Content-Type` header at
line 273. -/
def JSONTYPE : String := "application/json"

/-- `ErrInvalidSession` from the errors module (the distinguished error
code triggering refresh-and-retry, spec section 6). -/
def ErrInvalidSession : String := "InvalidSession"

/-- Outcome of one call to the token-renewal endpoint as seen through
`Auth.refreshToken`: a fresh access token, or a failure which is or is not
an invalid-session signal. -/
inductive RefreshOutcome where
  | success (newToken : String)
  | failure (invalidSession : Bool) (msg : String)
deriving Repr, DecidableEq

/-- The service environment for `StitchClient._do`: the expiry predicate on
access-token strings (the token's embedded expiry claim compared with the
current time, spec section 4.1), and the responses of the renewal endpoint
and of the primary resource, indexed by how many calls of that kind were
already made. -/
structure Svc where
  expired : String → Bool
  refreshResp : Nat → RefreshOutcome
  primaryResp : Nat → Response

/-- Modelled from the spec: `Auth.isAccessTokenExpired` (the `auth` module
is not under `src/`).  Spec section 4.1: decode the access token's embedded
expiry and compare against current time; a missing or undecodable token is
treated as expired. -/
def isAccessTokenExpired (svc : Svc) (s : Session) : Bool :=
  match s.accessToken with
  | none => true
  | some t => svc.expired t

/-- The options object of `StitchClient._do` after merging with the
defaults of lines 227-232 (`noAuth` is absent from the defaults, hence
false). -/
structure DoOptions where
  refreshOnFailure : Bool := true
  useRefreshToken : Bool := false
  noAuth : Bool := false
  body : Option String := none
  headers : List (String × String) := []
  queryParams : Option String := none
  apiVersion : Nat := 2
  apiType : String := "app"
deriving Repr, DecidableEq

/-- One network call made by the dispatcher: a token-renewal call carrying
the stored refresh token as bearer, or a primary call recording the
resource, method, `Authorization` header and the option values in effect
at fetch time. -/
inductive Ev where
  | refreshCall (bearer : Option String)
  | primaryCall (resource method : String) (authHeader : Option String) (opts : DoOptions)
deriving Repr, DecidableEq

/-- Errors surfaced by `StitchClient._do`. -/
inductive DoError where
  /-- `StitchError('Must auth first', ErrUnauthorized)`, line 236. -/
  | mustAuthFirst
  /-- `StitchError(json.error, json.errorCode)` with `.response` and
  `.json` attached, lines 280-283 and 293-296. -/
  | stitchError (error : String) (errorCode : Option String)
      (response : Response) (json : JsonBody)
  /-- `Error(response.statusText)` with `.response` attached,
  lines 300-302. -/
  | statusTextError (statusText : String) (response : Response)
  /-- A failure of `Auth.refreshToken` propagating through the promise
  chain. -/
  | refreshError (msg : String)
deriving Repr, DecidableEq

/-- Dispatcher state: the token store (spec section 4.1; `none` =
unauthenticated) and how many renewal / primary calls were made so far. -/
structure St where
  store : Option Session
  nR : Nat := 0
  nP : Nat := 0
deriving Repr, DecidableEq

/-- Modelled from the spec: `Auth.refreshToken` (the `auth` module is not
under `src/`).  Spec section 4.3: a dedicated no-retry renewal request with
the refresh token as bearer; on success only the access-token field of the
stored session is replaced; on an invalid-session failure the entire
session is cleared before the error propagates; any other failure
propagates with the session unchanged.  Mirrors `BaasClient._refreshToken`
(lines 543-579). -/
def authRefreshToken (svc : Svc) (st : St) : St × Ev × Option String :=
  let ev := Ev.refreshCall (st.store.map (fun s => s.refreshToken))
  match svc.refreshResp st.nR with
  | .success t =>
      ({ st with
          store := st.store.map (fun s => { s with accessToken := some t }),
          nR := st.nR + 1 }, ev, none)
  | .failure inv msg =>
      ({ st with store := if inv then none else st.store, nR := st.nR + 1 },
        ev, some msg)

/-- The bearer credential attached at lines 256-259: the refresh token if
`useRefreshToken`, else the access token (JS template-literal coercion
turns a missing value into the text `undefined`). -/
def bearerToken (opts : DoOptions) (store : Option Session) : String :=
  match store with
  | none => "undefined"
  | some s =>
      if opts.useRefreshToken then s.refreshToken
      else s.accessToken.getD "undefined"

/-- Result of the fetch-and-classify part of `_do` (lines 248-303):
either the call is settled, or a reactive refresh succeeded and `_do` must
be re-invoked with `refreshOnFailure` forced false (lines 286-290). -/
inductive FetchOut where
  | settled (r : Except DoError Response)
  | retry
deriving Repr, DecidableEq

/-- Fetch and response classification of `StitchClient._do`,
lines 248-303.  Returns the updated state, the network calls made (the
primary call and, on the reactive path, the renewal call), and whether the
call settled or must be re-dispatched. -/
def stitchFetch (svc : Svc) (resource method : String) (opts : DoOptions)
    (st : St) : St × List Ev × FetchOut :=
  let authHeader : Option String :=
    if opts.noAuth then none
    else some ("Bearer " ++ bearerToken opts st.store)
  let resp := svc.primaryResp st.nP
  let ev := Ev.primaryCall resource method authHeader opts
  let st1 : St := { st with nP := st.nP + 1 }
  if 200 ≤ resp.status ∧ resp.status < 300 then
    (st1, [ev], .settled (.ok resp))
  else if resp.contentType = JSONTYPE then
    if resp.json.errorCode = some ErrInvalidSession then
      if opts.refreshOnFailure = false then
        ({ st1 with store := none }, [ev],
          .settled (.error (.stitchError resp.json.error resp.json.errorCode resp resp.json)))
      else
        match authRefreshToken svc st1 with
        | (st2, rev, some msg) =>
            (st2, [ev, rev], .settled (.error (.refreshError msg)))
        | (st2, rev, none) => (st2, [ev, rev], .retry)
    else
      (st1, [ev],
        .settled (.error (.stitchError resp.json.error resp.json.errorCode resp resp.json)))
  else
    (st1, [ev], .settled (.error (.statusTextError resp.statusText resp)))

/-- `StitchClient._do`, lines 226-304, as a fuel-indexed transition
function.  Each recursive re-invocation of `_do` consumes one unit of
fuel; a `none` result means the chain of re-invocations was still running
when the fuel ran out.  The returned list is the chronological sequence of
network calls. -/
def stitchDo (svc : Svc) (resource method : String) :
    DoOptions → Nat → St → St × List Ev × Option (Except DoError Response)
  | _, 0, st => (st, [], none)
  | opts, fuel + 1, st =>
    if opts.noAuth then
      -- lines 234-246 are skipped entirely when `noAuth` is set
      match stitchFetch svc resource method opts st with
      | (st1, evs, .settled r) => (st1, evs, some r)
      | (st1, evs, .retry) =>
          let out := stitchDo svc resource method
            { opts with refreshOnFailure := false } fuel st1
          (out.1, evs ++ out.2.1, out.2.2)
    else
      match st.store with
      | none => (st, [], some (.error .mustAuthFirst))
      | some sess =>
        if opts.useRefreshToken = false ∧ isAccessTokenExpired svc sess then
          -- proactive path, lines 239-245
          match authRefreshToken svc st with
          | (st1, rev, some msg) =>
              (st1, [rev], some (.error (.refreshError msg)))
          | (st1, rev, none) =>
              let out := stitchDo svc resource method
                { opts with refreshOnFailure := false } fuel st1
              (out.1, rev :: out.2.1, out.2.2)
        else
          match stitchFetch svc resource method opts st with
          | (st1, evs, .settled r) => (st1, evs, some r)
          | (st1, evs, .retry) =>
              let out := stitchDo svc resource method
                { opts with refreshOnFailure := false } fuel st1
              (out.1, evs ++ out.2.1, out.2.2)

/-- Number of token-renewal calls in a call trace. -/
def countRefresh (evs : List Ev) : Nat :=
  evs.countP fun e =>
    match e with
    | .refreshCall _ => true
    | .primaryCall _ _ _ _ => false

/-- Number of primary calls in a call trace. -/
def countPrimary (evs : List Ev) : Nat :=
  evs.countP fun e =>
    match e with
    | .refreshCall _ => false
    | .primaryCall _ _ _ _ => true

/-- A response classified as a structured invalid-session error by
lines 269-277: non-2xx status, JSON content type, `errorCode` present and
equal to `ErrInvalidSession`. -/
def isInvalidSessionResp (r : Response) : Prop :=
  ¬(200 ≤ r.status ∧ r.status < 300) ∧ r.contentType = JSONTYPE ∧
    r.json.errorCode = some ErrInvalidSession

instance (r : Response) : Decidable (isInvalidSessionResp r) := by
  unfold isInvalidSessionResp; infer_instance

/-- A response classified as a structured invalid-session error by the
legacy client, lines 519-524: non-2xx status, JSON content type,
`errorCode` present and equal to `InvalidSession`. -/
def bInvalidResp (r : Response) : Prop :=
  ¬(200 ≤ r.status ∧ r.status < 300) ∧ r.contentType = "application/json" ∧
    r.json.errorCode = some "InvalidSession"

instance (r : Response) : Decidable (bInvalidResp r) := by
  unfold bInvalidResp; infer_instance

/-! ### StitchClient.authenticate (lines 131-139) -/

/-- Modelled from the spec: `Auth.getAccessToken` of the `auth` module
(not under `src/`): the access token currently held by the Token Store,
absent when no session or no token is stored. -/
def getAccessToken (σ : Option Session) : Option String :=
  σ.bind (fun s => s.accessToken)

/-- Modelled from the spec: `Auth.authedId` of the `auth` module (not
under `src/`): the stored identity of the authenticated principal. -/
def authedId (σ : Option Session) : Option String :=
  σ.map (fun s => s.userId)

/-- What `StitchClient.authenticate` does: immediately resolve with the
stored identity (no provider involved, no network call), or delegate to
the named provider's own `authenticate`. -/
inductive AuthAction where
  | resolveExisting (userId : Option String)
  | invokeProvider (providerType : String)
deriving Repr, DecidableEq

/-- `StitchClient.authenticate`, lines 131-139: when the existing auth
data has an access token (JS truthiness: present and non-empty), resolve
with `authedId` and never touch the provider; otherwise delegate to the
provider named by `providerType`. -/
def authenticate (σ : Option Session) (providerType : String) : AuthAction :=
  if (getAccessToken σ).getD "" ≠ "" then .resolveExisting (authedId σ)
  else .invokeProvider providerType

/-! ### Legacy BaasClient (lines 320-597) -/

/-- The decoded value stored under `USER_AUTH_KEY`: the fields of the auth
object that the legacy client reads (`auth()['user']['_id']` at line 432
and `auth()['accessToken']` at line 513). -/
structure BAuth where
  userId : String
  accessToken : String
deriving Repr, DecidableEq

/-- The legacy client's localStorage slice: the two keys `USER_AUTH_KEY`
(decoded) and `REFRESH_TOKEN_KEY` (lines 341-342); `none` = key absent. -/
structure BStorage where
  userAuth : Option BAuth
  refreshTok : Option String
deriving Repr, DecidableEq

/-- Service environment for the legacy client: responses of the primary
resource and of the `/auth/newAccessToken` endpoint, indexed by the number
of calls of that kind already made. -/
structure BSvc where
  primaryResp : Nat → Response
  refreshResp : Nat → Response

/-- Legacy client state: the storage plus the call counters into the
service oracle. -/
structure BSt where
  storage : BStorage
  nR : Nat := 0
  nP : Nat := 0
deriving Repr, DecidableEq

/-- One network call of the legacy client, recording for primary calls
the effective (defaulted) `refreshOnFailure` and `useRefreshToken`
parameter values of the `_doAuthed` invocation that made it. -/
inductive BEv where
  | refreshCall (bearer : Option String)
  | primaryCall (resource method : String) (body : Option String)
      (bearer : String) (refreshOnFailure useRefreshToken : Bool)
deriving Repr, DecidableEq

/-- Errors surfaced by the legacy client. -/
inductive BErr where
  /-- `Error("Must auth first")`, line 497. -/
  | mustAuthFirst
  /-- `new Error(json)`, lines 527 and 565: a plain `Error` whose message
  is the string coercion of the body.  Unlike `StitchClient`'s errors, no
  `.response` and no decoded `.json` member is attached to it; the
  constructor records the body only so that the classification that led
  here stays visible in the model. -/
  | errJson (json : JsonBody)
  /-- `Error(response.statusText)` with `.response` attached,
  lines 537-539 and 569-571. -/
  | statusTextError (statusText : String) (response : Response)
deriving Repr, DecidableEq

/-- The response object recoverable from a legacy error: only the
status-text error (lines 537-539) attaches `.response`; the errors thrown
at lines 527 and 565 carry none. -/
def bErrResponse : BErr → Option Response
  | .statusTextError _ resp => some resp
  | _ => none

/-- `BaasClient._clearAuth`, lines 412-416: removes both storage keys. -/
def clearAuth (_s : BStorage) : BStorage :=
  { userAuth := none, refreshTok := none }

/-- `BaasClient._setAccessToken`, lines 581-586: re-reads the stored auth
object, replaces its `accessToken` member and writes it back (the refresh
token key is untouched). -/
def setAccessToken (token : String) (s : BStorage) : BStorage :=
  { s with userAuth := s.userAuth.map (fun a => { a with accessToken := token }) }

/-- `BaasClient._refreshToken`, lines 543-579: one bearer-authenticated
call to `/auth/newAccessToken`.  Status 200: store the returned access
token via `_setAccessToken`.  Other statuses with a JSON body: clear the
whole storage when the body's error code is `InvalidSession`, then throw
`Error(json)`.  Other statuses without a JSON body: throw the status-text
error.  The returned list holds the single network call made. -/
def refreshTokenB (svc : BSvc) (st : BSt) : BSt × List BEv × Except BErr Unit :=
  let resp := svc.refreshResp st.nR
  let ev := BEv.refreshCall st.storage.refreshTok
  let st1 : BSt := { st with nR := st.nR + 1 }
  if resp.status ≠ 200 then
    if resp.contentType = "application/json" then
      let st2 : BSt :=
        if resp.json.errorCode = some "InvalidSession" then
          { st1 with storage := clearAuth st1.storage }
        else st1
      (st2, [ev], .error (.errJson resp.json))
    else (st1, [ev], .error (.statusTextError resp.statusText resp))
  else
    ({ st1 with storage := setAccessToken resp.json.accessToken st1.storage },
      [ev], .ok ())

/-- The bearer credential of `_doAuthed`, line 513: the stored refresh
token when `useRefreshToken` (JS `localStorage.getItem` returns null for a
missing key, which string-concatenation renders as `null`), else the
stored access token. -/
def bBearer (urt : Bool) (st : BSt) (a : BAuth) : String :=
  if urt then st.storage.refreshTok.getD "null" else a.accessToken

/-- `BaasClient._doAuthed`, lines 483-541.  `refreshOnFailure` and
`useRefreshToken` are optional JS parameters (`undefined` defaults to
true resp. false, lines 488-494); the reactive retry at line 531 passes
only four arguments, so the retried call's `useRefreshToken` reverts to
its default.  A successful (2xx) response resolves with the response; a
non-2xx JSON response whose error code is not `InvalidSession` falls off
the classification handler and resolves with no value (`.ok none`).
`none` in the last component means out of fuel. -/
def doAuthed (svc : BSvc) (resource method : String) (body : Option String) :
    Option Bool → Option Bool → Nat → BSt →
      BSt × List BEv × Option (Except BErr (Option Response))
  | _, _, 0, st => (st, [], none)
  | refreshOnFailureArg, useRefreshTokenArg, fuel + 1, st =>
    let rof := refreshOnFailureArg.getD true
    let urt := useRefreshTokenArg.getD false
    match st.storage.userAuth with
    | none => (st, [], some (.error .mustAuthFirst))
    | some a =>
      let token := bBearer urt st a
      let resp := svc.primaryResp st.nP
      let ev := BEv.primaryCall resource method body token rof urt
      let st1 : BSt := { st with nP := st.nP + 1 }
      if 200 ≤ resp.status ∧ resp.status < 300 then
        (st1, [ev], some (.ok (some resp)))
      else if resp.contentType = "application/json" then
        if resp.json.errorCode = some "InvalidSession" then
          if rof = false then
            ({ st1 with storage := clearAuth st1.storage }, [ev],
              some (.error (.errJson resp.json)))
          else
            match refreshTokenB svc st1 with
            | (st2, revs, .error e) => (st2, ev :: revs, some (.error e))
            | (st2, revs, .ok ()) =>
                let out := doAuthed svc resource method body (some false) none fuel st2
                (out.1, ev :: (revs ++ out.2.1), out.2.2)
        else (st1, [ev], some (.ok none))
      else (st1, [ev], some (.error (.statusTextError resp.statusText resp)))

/-- Number of renewal calls in a legacy call trace. -/
def countRefreshB (evs : List BEv) : Nat :=
  evs.countP fun e =>
    match e with
    | .refreshCall _ => true
    | .primaryCall _ _ _ _ _ _ => false

/-- Number of primary calls in a legacy call trace. -/
def countPrimaryB (evs : List BEv) : Nat :=
  evs.countP fun e =>
    match e with
    | .refreshCall _ => false
    | .primaryCall _ _ _ _ _ _ => true

/-! ### Trace predicates -/

/-- The `Authorization` header value that `stitchFetch` attaches for a
given option record and store. -/
def stitchAH (opts : DoOptions) (store : Option Session) : Option String :=
  if opts.noAuth then none else some ("Bearer " ++ bearerToken opts store)

/-- `flagsOk allow evs`: in the trace `evs`, every primary call that comes
after a renewal call ran with `refreshOnFailure = false`; a primary call
before any renewal may have the flag set only when `allow` (the flag of
the dispatch invocation that opened the trace) is set. -/
def flagsOk : Bool → List Ev → Bool
  | _, [] => true
  | _, .refreshCall _ :: rest => flagsOk false rest
  | allow, .primaryCall _ _ _ o :: rest =>
      (!o.refreshOnFailure || allow) && flagsOk allow rest

/-- Every primary call of a trace carries the caller's resource, method
and every option except `refreshOnFailure`; a primary call of a `noAuth`
dispatch carries no `Authorization` header. -/
def evOk (r m : String) (opts : DoOptions) : Ev → Prop
  | .refreshCall _ => True
  | .primaryCall res met ah o =>
      res = r ∧ met = m ∧ o.useRefreshToken = opts.useRefreshToken ∧
      o.noAuth = opts.noAuth ∧ o.body = opts.body ∧ o.headers = opts.headers ∧
      o.queryParams = opts.queryParams ∧ o.apiVersion = opts.apiVersion ∧
      o.apiType = opts.apiType ∧ (o.noAuth = true → ah = none)

/-- Legacy trace predicate: every primary call in the trace ran with both
`refreshOnFailure = false` and `useRefreshToken = false`. -/
def bRetryOk : List BEv → Bool
  | [] => true
  | .refreshCall _ :: rest => bRetryOk rest
  | .primaryCall _ _ _ _ rof urt :: rest => !rof && !urt && bRetryOk rest

/-- Legacy trace predicate: every primary call that comes after a renewal
call ran with `refreshOnFailure = false` and with `useRefreshToken` reset
to its default `false`. -/
def bFlagsOk : List BEv → Bool
  | [] => true
  | .refreshCall _ :: rest => bRetryOk rest
  | .primaryCall _ _ _ _ _ _ :: rest => bFlagsOk rest

/-- Every primary call of a legacy trace carries the caller's resource,
method and body. -/
def bEvOk (r m : String) (b : Option String) : BEv → Prop
  | .refreshCall _ => True
  | .primaryCall res met bd _ _ _ => res = r ∧ met = m ∧ bd = b

/-! ### Concrete instances used by witnesses and counterexamples -/

/-- A session whose access token `A1` is the stale one of `wSvc`. -/
def wSession : Session := ⟨"u1", some "A1", "R1"⟩

/-- A structured invalid-session error response. -/
def invalidSessionResponse : Response :=
  ⟨401, JSONTYPE, "Unauthorized",
    { error := "invalid session", errorCode := some ErrInvalidSession }⟩

/-- A plain 200 JSON response. -/
def okResponse : Response := ⟨200, JSONTYPE, "OK", {}⟩

/-- A structured non-2xx response with a non-invalid-session error code. -/
def otherErrorResponse : Response :=
  ⟨500, JSONTYPE, "Internal Server Error",
    { error := "boom", errorCode := some "OtherError" }⟩

/-- A non-2xx response without a JSON body. -/
def htmlErrorResponse : Response := ⟨502, "text/html", "Bad Gateway", {}⟩

/-- Environment where `A1` is expired, renewal yields the fresh `A2`, and
the resource answers 200. -/
def wSvc : Svc :=
  { expired := fun t => t == "A1",
    refreshResp := fun _ => .success "A2",
    primaryResp := fun _ => okResponse }

/-- Environment where nothing is expired, renewal yields `A2`, and the
resource always reports an invalid session. -/
def invSvc : Svc :=
  { expired := fun _ => false,
    refreshResp := fun _ => .success "A2",
    primaryResp := fun _ => invalidSessionResponse }

/-- Environment where the resource answers with a structured
non-invalid-session error. -/
def otherErrSvc : Svc :=
  { expired := fun _ => false,
    refreshResp := fun _ => .success "A2",
    primaryResp := fun _ => otherErrorResponse }

/-- Environment where the resource answers with a non-JSON error. -/
def htmlErrSvc : Svc :=
  { expired := fun _ => false,
    refreshResp := fun _ => .success "A2",
    primaryResp := fun _ => htmlErrorResponse }

/-- Adversarial environment: every token, including every freshly minted
one, decodes as already expired. -/
def alwaysExpiredSvc : Svc :=
  { expired := fun _ => true,
    refreshResp := fun _ => .success "T",
    primaryResp := fun _ => okResponse }

/-- Legacy storage with a full session. -/
def wBSt : BSt := ⟨⟨some ⟨"u1", "A1"⟩, some "R1"⟩, 0, 0⟩

/-- A 200 renewal response carrying the fresh access token `A2`. -/
def bRefreshOkResponse : Response :=
  ⟨200, "application/json", "OK", { accessToken := "A2" }⟩

/-- Legacy environment: the resource answers a structured
non-invalid-session error and renewal succeeds. -/
def bOtherErrSvc : BSvc :=
  { primaryResp := fun _ => otherErrorResponse,
    refreshResp := fun _ => bRefreshOkResponse }

/-- Legacy environment: the first resource call reports an invalid
session, later ones succeed; renewal succeeds. -/
def bInvThenOkSvc : BSvc :=
  { primaryResp := fun n => if n == 0 then invalidSessionResponse else okResponse,
    refreshResp := fun _ => bRefreshOkResponse }

/-- Legacy environment whose renewal endpoint answers 200. -/
def bRefreshOkSvc : BSvc :=
  { primaryResp := fun _ => okResponse,
    refreshResp := fun _ => bRefreshOkResponse }

/-- Legacy environment: every resource call reports an invalid session;
renewal succeeds with the fresh token `A2`. -/
def bInvSvc : BSvc :=
  { primaryResp := fun _ => invalidSessionResponse,
    refreshResp := fun _ => bRefreshOkResponse }

/-- The settled outcome of the classification at lines 266-303 when no
retry happens (`refreshOnFailure = false`): 2xx passes the response
through; a JSON body — invalid-session or not — yields the structured
error with the response and decoded body attached; anything else yields
the status-text error. -/
def stitchClassify (resp : Response) : Except DoError Response :=
  if 200 ≤ resp.status ∧ resp.status < 300 then .ok resp
  else if resp.contentType = JSONTYPE then
    .error (.stitchError resp.json.error resp.json.errorCode resp resp.json)
  else .error (.statusTextError resp.statusText resp)

/-- Replacement of only the access-token member of a stored auth object,
keeping the identity: the success-path frame of `_setAccessToken`. -/
def replaceAccessToken (tok : String) (a : BAuth) : BAuth :=
  { userId := a.userId, accessToken := tok }

/-! ## Theorems -/

/-! ### Characterization of one fetch-and-classify step -/

theorem stitchFetch_ok (svc : Svc) (r m : String) (opts : DoOptions) (st : St)
    (h : 200 ≤ (svc.primaryResp st.nP).status ∧ (svc.primaryResp st.nP).status < 300) :
    stitchFetch svc r m opts st =
      ({ st with nP := st.nP + 1 },
        [Ev.primaryCall r m (stitchAH opts st.store) opts],
        .settled (.ok (svc.primaryResp st.nP))) := by
  simp only [stitchFetch, stitchAH]
  rw [if_pos h]

theorem stitchFetch_json_other (svc : Svc) (r m : String) (opts : DoOptions) (st : St)
    (h : ¬(200 ≤ (svc.primaryResp st.nP).status ∧ (svc.primaryResp st.nP).status < 300))
    (hct : (svc.primaryResp st.nP).contentType = JSONTYPE)
    (hec : (svc.primaryResp st.nP).json.errorCode ≠ some ErrInvalidSession) :
    stitchFetch svc r m opts st =
      ({ st with nP := st.nP + 1 },
        [Ev.primaryCall r m (stitchAH opts st.store) opts],
        .settled (.error (.stitchError (svc.primaryResp st.nP).json.error
          (svc.primaryResp st.nP).json.errorCode
          (svc.primaryResp st.nP) (svc.primaryResp st.nP).json))) := by
  simp only [stitchFetch, stitchAH]
  rw [if_neg h, if_pos hct, if_neg hec]

theorem stitchFetch_not_json (svc : Svc) (r m : String) (opts : DoOptions) (st : St)
    (h : ¬(200 ≤ (svc.primaryResp st.nP).status ∧ (svc.primaryResp st.nP).status < 300))
    (hct : (svc.primaryResp st.nP).contentType ≠ JSONTYPE) :
    stitchFetch svc r m opts st =
      ({ st with nP := st.nP + 1 },
        [Ev.primaryCall r m (stitchAH opts st.store) opts],
        .settled (.error (.statusTextError (svc.primaryResp st.nP).statusText
          (svc.primaryResp st.nP)))) := by
  simp only [stitchFetch, stitchAH]
  rw [if_neg h, if_neg hct]

theorem stitchFetch_invalid_noRetry (svc : Svc) (r m : String) (opts : DoOptions) (st : St)
    (hflag : opts.refreshOnFailure = false)
    (hinv : isInvalidSessionResp (svc.primaryResp st.nP)) :
    stitchFetch svc r m opts st =
      ({ store := none, nR := st.nR, nP := st.nP + 1 },
        [Ev.primaryCall r m (stitchAH opts st.store) opts],
        .settled (.error (.stitchError (svc.primaryResp st.nP).json.error
          (svc.primaryResp st.nP).json.errorCode
          (svc.primaryResp st.nP) (svc.primaryResp st.nP).json))) := by
  obtain ⟨h1, h2, h3⟩ := hinv
  simp only [stitchFetch, stitchAH]
  rw [if_neg h1, if_pos h2, if_pos h3, if_pos hflag]

theorem stitchFetch_invalid_refreshOk (svc : Svc) (r m : String) (opts : DoOptions)
    (st : St) (t : String)
    (hflag : opts.refreshOnFailure = true)
    (hinv : isInvalidSessionResp (svc.primaryResp st.nP))
    (href : svc.refreshResp st.nR = .success t) :
    stitchFetch svc r m opts st =
      ({ store := st.store.map (fun s => { s with accessToken := some t }),
          nR := st.nR + 1, nP := st.nP + 1 },
        [Ev.primaryCall r m (stitchAH opts st.store) opts,
         Ev.refreshCall (st.store.map (fun s => s.refreshToken))],
        .retry) := by
  obtain ⟨h1, h2, h3⟩ := hinv
  simp only [stitchFetch, stitchAH, authRefreshToken]
  rw [if_neg h1, if_pos h2, if_pos h3, if_neg (by simp [hflag])]
  simp [href]

/-- With `refreshOnFailure = false` a fetch step always settles (the
reactive branch is unreachable), with exactly the primary call in its
trace. -/
theorem stitchFetch_flag_false_settles (svc : Svc) (r m : String) (opts : DoOptions)
    (st : St) (hflag : opts.refreshOnFailure = false) :
    (stitchFetch svc r m opts st).2.1 =
      [Ev.primaryCall r m (stitchAH opts st.store) opts] ∧
    ∃ res, (stitchFetch svc r m opts st).2.2 = .settled res := by
  simp only [stitchFetch, stitchAH]
  split_ifs <;> simp_all

/-- A fetch step can demand a retry only when the dispatch ran with
`refreshOnFailure = true`. -/
theorem stitchFetch_retry_flag (svc : Svc) (r m : String) (opts : DoOptions) (st : St)
    (h : (stitchFetch svc r m opts st).2.2 = .retry) :
    opts.refreshOnFailure = true := by
  by_contra hf
  have hflag : opts.refreshOnFailure = false := by
    cases hh : opts.refreshOnFailure
    · rfl
    · exact absurd hh hf
  obtain ⟨-, res, hres⟩ := stitchFetch_flag_false_settles svc r m opts st hflag
  rw [h] at hres
  exact FetchOut.noConfusion hres

/-- The trace of a fetch step is the primary call, followed by a renewal
call exactly when the reactive branch ran. -/
theorem stitchFetch_evs (svc : Svc) (r m : String) (opts : DoOptions) (st : St) :
    (stitchFetch svc r m opts st).2.1 =
      [Ev.primaryCall r m (stitchAH opts st.store) opts] ∨
    (stitchFetch svc r m opts st).2.1 =
      [Ev.primaryCall r m (stitchAH opts st.store) opts,
       Ev.refreshCall (st.store.map (fun s => s.refreshToken))] := by
  simp only [stitchFetch, stitchAH, authRefreshToken]
  split_ifs <;> try (exact Or.inl rfl)
  all_goals rcases href : svc.refreshResp st.nR with t | ⟨inv, msg⟩ <;> simp [href]

theorem authRefreshToken_ev (svc : Svc) (st : St) :
    (authRefreshToken svc st).2.1 =
      Ev.refreshCall (st.store.map (fun s => s.refreshToken)) := by
  cases h : svc.refreshResp st.nR <;> simp [authRefreshToken, h]

/-- A retry outcome reports that the renewal succeeded: the next state
holds the freshly minted token and the trace is the primary call followed
by the renewal call. -/
theorem stitchFetch_retry_inv (svc : Svc) (r m : String) (opts : DoOptions) (st : St)
    (h : (stitchFetch svc r m opts st).2.2 = .retry) :
    ∃ t, svc.refreshResp st.nR = .success t ∧
      (stitchFetch svc r m opts st).1.store =
        st.store.map (fun s => { s with accessToken := some t }) ∧
      (stitchFetch svc r m opts st).2.1 =
        [Ev.primaryCall r m (stitchAH opts st.store) opts,
         Ev.refreshCall (st.store.map (fun s => s.refreshToken))] := by
  simp only [stitchFetch, stitchAH, authRefreshToken] at h ⊢
  split_ifs at h ⊢ <;> try (exact absurd h (by simp))
  all_goals rcases href : svc.refreshResp st.nR with t | ⟨inv, msg⟩
  all_goals rw [href] at h
  all_goals try (simp at h)
  all_goals exact ⟨t, rfl, by simp, by simp⟩

/-- The fetch step makes exactly one primary call. -/
theorem countPrimary_fetch (svc : Svc) (r m : String) (opts : DoOptions) (st : St) :
    countPrimary (stitchFetch svc r m opts st).2.1 = 1 := by
  rcases stitchFetch_evs svc r m opts st with h | h <;> rw [h] <;> rfl

/-- Every call of a fetch step satisfies the per-event invariant for the
options the step ran with. -/
theorem evOk_fetch (svc : Svc) (r m : String) (opts : DoOptions) (st : St) :
    ∀ e ∈ (stitchFetch svc r m opts st).2.1, evOk r m opts e := by
  rcases stitchFetch_evs svc r m opts st with h | h <;> rw [h] <;>
    intro e he <;> simp only [List.mem_cons, List.mem_singleton] at he
  · rcases he with rfl | he
    · refine ⟨rfl, rfl, rfl, rfl, rfl, rfl, rfl, rfl, rfl, ?_⟩
      intro hna
      simp [stitchAH, hna]
    · cases he
  · rcases he with rfl | rfl | he
    · refine ⟨rfl, rfl, rfl, rfl, rfl, rfl, rfl, rfl, rfl, ?_⟩
      intro hna
      simp [stitchAH, hna]
    · trivial
    · cases he

/-- The trace of a fetch step satisfies the flag discipline for the flag
the step ran with. -/
theorem flagsOk_fetch (svc : Svc) (r m : String) (opts : DoOptions) (st : St) :
    flagsOk opts.refreshOnFailure (stitchFetch svc r m opts st).2.1 = true := by
  rcases stitchFetch_evs svc r m opts st with h | h <;> rw [h] <;>
    cases hf : opts.refreshOnFailure <;> simp [flagsOk, hf]

/-! ### Characterization of one dispatch step -/

/-- When `noAuth` is set, or the store holds a session and the proactive
check does not fire, a dispatch step is exactly a fetch step followed, on
retry, by a re-dispatch with `refreshOnFailure` forced false. -/
theorem stitchDo_fetch_step (svc : Svc) (r m : String) (opts : DoOptions)
    (st : St) (n : Nat)
    (hgate : opts.noAuth = true ∨
      ∃ sess, st.store = some sess ∧
        (opts.useRefreshToken = true ∨ isAccessTokenExpired svc sess = false)) :
    stitchDo svc r m opts (n + 1) st =
      (match stitchFetch svc r m opts st with
        | (st1, evs, .settled res) => (st1, evs, some res)
        | (st1, evs, .retry) =>
            let out := stitchDo svc r m
              { opts with refreshOnFailure := false } n st1
            (out.1, evs ++ out.2.1, out.2.2)) := by
  simp only [stitchDo]
  by_cases hna : opts.noAuth = true
  · rw [if_pos hna]
  · rw [if_neg hna]
    rcases hgate with hna' | ⟨sess, hstore, hskip⟩
    · exact absurd hna' hna
    · have hcond : ¬(opts.useRefreshToken = false ∧ isAccessTokenExpired svc sess) := by
        rcases hskip with h | h <;> simp [h]
      rw [hstore]
      dsimp only
      rw [if_neg hcond]

/-- The proactive path, lines 239-245: expired access token with
`useRefreshToken = false` and a successful renewal lead to a re-dispatch
with a fresh token and `refreshOnFailure` forced false. -/
theorem stitchDo_proactive_step (svc : Svc) (r m : String) (opts : DoOptions)
    (st : St) (sess : Session) (t : String) (n : Nat)
    (hnoAuth : opts.noAuth = false) (hurt : opts.useRefreshToken = false)
    (hstore : st.store = some sess)
    (hexp : isAccessTokenExpired svc sess = true)
    (href : svc.refreshResp st.nR = .success t) :
    stitchDo svc r m opts (n + 1) st =
      (let out := stitchDo svc r m { opts with refreshOnFailure := false } n
        { store := some { sess with accessToken := some t },
          nR := st.nR + 1, nP := st.nP };
       (out.1, Ev.refreshCall (some sess.refreshToken) :: out.2.1, out.2.2)) := by
  simp only [stitchDo, hnoAuth, Bool.false_eq_true, if_false, hstore]
  rw [if_pos (by simp [hurt, hexp])]
  simp [authRefreshToken, href, hstore]

theorem countPrimary_nil : countPrimary [] = 0 := rfl

theorem countPrimary_cons_refresh (b : Option String) (l : List Ev) :
    countPrimary (Ev.refreshCall b :: l) = countPrimary l := by
  simp [countPrimary, List.countP_cons]

theorem countPrimary_append (l1 l2 : List Ev) :
    countPrimary (l1 ++ l2) = countPrimary l1 + countPrimary l2 :=
  List.countP_append _ _ _

theorem flagsOk_cons_refresh (a : Bool) (b : Option String) (l : List Ev) :
    flagsOk a (Ev.refreshCall b :: l) = flagsOk false l := rfl

theorem flagsOk_cons_primary (a : Bool) (res met : String) (ah : Option String)
    (o : DoOptions) (l : List Ev) :
    flagsOk a (Ev.primaryCall res met ah o :: l) =
      ((!o.refreshOnFailure || a) && flagsOk a l) := rfl

/-- Lines 234-237: no identity, `noAuth` unset — local rejection, no
network call, store untouched. -/
theorem stitchDo_noStore (svc : Svc) (r m : String) (opts : DoOptions) (st : St)
    (n : Nat) (hna : opts.noAuth = false) (hσ : st.store = none) :
    stitchDo svc r m opts (n + 1) st = (st, [], some (.error .mustAuthFirst)) := by
  simp only [stitchDo]
  rw [if_neg (by simp [hna]), hσ]

/-- The proactive path when the renewal itself fails: the failure
propagates with no primary call made. -/
theorem stitchDo_proactive_fail (svc : Svc) (r m : String) (opts : DoOptions)
    (st : St) (sess : Session) (inv : Bool) (msg : String) (n : Nat)
    (hnoAuth : opts.noAuth = false) (hurt : opts.useRefreshToken = false)
    (hstore : st.store = some sess)
    (hexp : isAccessTokenExpired svc sess = true)
    (href : svc.refreshResp st.nR = .failure inv msg) :
    stitchDo svc r m opts (n + 1) st =
      ({ store := if inv then none else st.store, nR := st.nR + 1, nP := st.nP },
       [Ev.refreshCall (some sess.refreshToken)],
       some (.error (.refreshError msg))) := by
  simp only [stitchDo]
  rw [if_neg (by simp [hnoAuth]), hstore]
  dsimp only
  rw [if_pos ⟨hurt, hexp⟩]
  simp [authRefreshToken, href, hstore]

/-- A dispatch sitting at a fetch position with `refreshOnFailure = false`
always settles. -/
theorem stitchDo_fetch_flag_false_isSome (svc : Svc) (r m : String)
    (opts : DoOptions) (st : St) (n : Nat)
    (hflag : opts.refreshOnFailure = false)
    (hgate : opts.noAuth = true ∨
      ∃ sess, st.store = some sess ∧
        (opts.useRefreshToken = true ∨ isAccessTokenExpired svc sess = false)) :
    (stitchDo svc r m opts (n + 1) st).2.2.isSome = true := by
  rw [stitchDo_fetch_step svc r m opts st n hgate]
  obtain ⟨-, res, hout⟩ := stitchFetch_flag_false_settles svc r m opts st hflag
  rcases hsf : stitchFetch svc r m opts st with ⟨stx, evsx, outx⟩
  rw [hsf] at hout
  dsimp only at hout
  subst hout
  simp

/-- Primary-call bound at a fetch position, given the bound for flag-false
re-dispatches. -/
theorem stitchDo_fetch_primary_bound (svc : Svc) (r m : String) (opts : DoOptions)
    (st : St) (n : Nat)
    (hgate : opts.noAuth = true ∨
      ∃ sess, st.store = some sess ∧
        (opts.useRefreshToken = true ∨ isAccessTokenExpired svc sess = false))
    (ihP : ∀ st2, countPrimary
      (stitchDo svc r m { opts with refreshOnFailure := false } n st2).2.1 ≤ 1) :
    (opts.refreshOnFailure = false →
      countPrimary (stitchDo svc r m opts (n + 1) st).2.1 ≤ 1) ∧
    countPrimary (stitchDo svc r m opts (n + 1) st).2.1 ≤ 2 := by
  rw [stitchDo_fetch_step svc r m opts st n hgate]
  have hcp := countPrimary_fetch svc r m opts st
  rcases hsf : stitchFetch svc r m opts st with ⟨stx, evsx, outx⟩
  rw [hsf] at hcp
  dsimp only at hcp
  cases outx with
  | settled res =>
    constructor
    · intro _
      dsimp only
      rw [hcp]
    · dsimp only
      rw [hcp]
      omega
  | retry =>
    have hflag := stitchFetch_retry_flag svc r m opts st (by rw [hsf])
    refine ⟨fun hff => ?_, ?_⟩
    · rw [hff] at hflag
      exact absurd hflag (by simp)
    · dsimp only
      rw [countPrimary_append, hcp]
      have := ihP stx
      omega

/-- At most two primary calls ever occur in one dispatch chain, and at
most one when the chain starts with `refreshOnFailure = false`. -/
theorem stitchDo_primary_bound (svc : Svc) (r m : String) :
    ∀ (fuel : Nat) (opts : DoOptions) (st : St),
      (opts.refreshOnFailure = false →
        countPrimary (stitchDo svc r m opts fuel st).2.1 ≤ 1) ∧
      countPrimary (stitchDo svc r m opts fuel st).2.1 ≤ 2 := by
  intro fuel
  induction fuel with
  | zero =>
    intro opts st
    exact ⟨fun _ => by simp [stitchDo, countPrimary], by simp [stitchDo, countPrimary]⟩
  | succ n ih =>
    intro opts st
    have ihP : ∀ st2, countPrimary
        (stitchDo svc r m { opts with refreshOnFailure := false } n st2).2.1 ≤ 1 :=
      fun st2 => (ih _ st2).1 rfl
    by_cases hna : opts.noAuth = true
    · exact stitchDo_fetch_primary_bound svc r m opts st n (Or.inl hna) ihP
    · have hna' : opts.noAuth = false := by simpa using hna
      cases hσ : st.store with
      | none =>
        rw [stitchDo_noStore svc r m opts st n hna' hσ]
        exact ⟨fun _ => by simp [countPrimary], by simp [countPrimary]⟩
      | some sess =>
        by_cases hpro : opts.useRefreshToken = false ∧ isAccessTokenExpired svc sess = true
        · cases href : svc.refreshResp st.nR with
          | success t =>
            rw [stitchDo_proactive_step svc r m opts st sess t n hna' hpro.1 hσ hpro.2 href]
            constructor
            · intro _
              dsimp only
              rw [countPrimary_cons_refresh]
              exact ihP _
            · dsimp only
              rw [countPrimary_cons_refresh]
              exact le_trans (ihP _) (by omega)
          | failure inv msg =>
            rw [stitchDo_proactive_fail svc r m opts st sess inv msg n hna' hpro.1 hσ hpro.2 href]
            exact ⟨fun _ => by simp [countPrimary, List.countP_cons],
              by simp [countPrimary, List.countP_cons]⟩
        · have hskip : opts.useRefreshToken = true ∨ isAccessTokenExpired svc sess = false := by
            by_cases hu : opts.useRefreshToken = true
            · exact Or.inl hu
            · have hu' : opts.useRefreshToken = false := by simpa using hu
              cases hb : isAccessTokenExpired svc sess
              · exact Or.inr rfl
              · exact absurd ⟨hu', hb⟩ hpro
          exact stitchDo_fetch_primary_bound svc r m opts st n (Or.inr ⟨sess, hσ, hskip⟩) ihP

theorem skip_of_not_pro (opts : DoOptions) (svc : Svc) (sess : Session)
    (hpro : ¬(opts.useRefreshToken = false ∧ isAccessTokenExpired svc sess = true)) :
    opts.useRefreshToken = true ∨ isAccessTokenExpired svc sess = false := by
  by_cases hu : opts.useRefreshToken = true
  · exact Or.inl hu
  · have hu' : opts.useRefreshToken = false := by simpa using hu
    cases hb : isAccessTokenExpired svc sess
    · exact Or.inr rfl
    · exact absurd ⟨hu', hb⟩ hpro

theorem evOk_flag_indep (r m : String) (opts : DoOptions) (e : Ev)
    (h : evOk r m { opts with refreshOnFailure := false } e) : evOk r m opts e := by
  cases e
  · trivial
  · exact h

/-- Per-event invariant at a fetch position. -/
theorem stitchDo_fetch_evOk (svc : Svc) (r m : String) (opts : DoOptions)
    (st : St) (n : Nat)
    (hgate : opts.noAuth = true ∨
      ∃ sess, st.store = some sess ∧
        (opts.useRefreshToken = true ∨ isAccessTokenExpired svc sess = false))
    (ihE : ∀ st2 e, e ∈ (stitchDo svc r m
        { opts with refreshOnFailure := false } n st2).2.1 →
      evOk r m { opts with refreshOnFailure := false } e) :
    ∀ e ∈ (stitchDo svc r m opts (n + 1) st).2.1, evOk r m opts e := by
  rw [stitchDo_fetch_step svc r m opts st n hgate]
  have hev := evOk_fetch svc r m opts st
  rcases hsf : stitchFetch svc r m opts st with ⟨stx, evsx, outx⟩
  rw [hsf] at hev
  dsimp only at hev
  cases outx with
  | settled res =>
    dsimp only
    exact hev
  | retry =>
    dsimp only
    intro e he
    rw [List.mem_append] at he
    rcases he with he | he
    · exact hev e he
    · exact evOk_flag_indep r m opts e (ihE stx e he)

/-- Flag discipline at a fetch position. -/
theorem stitchDo_fetch_flagsOk (svc : Svc) (r m : String) (opts : DoOptions)
    (st : St) (n : Nat)
    (hgate : opts.noAuth = true ∨
      ∃ sess, st.store = some sess ∧
        (opts.useRefreshToken = true ∨ isAccessTokenExpired svc sess = false))
    (ihF : ∀ st2, flagsOk false (stitchDo svc r m
        { opts with refreshOnFailure := false } n st2).2.1 = true) :
    flagsOk opts.refreshOnFailure (stitchDo svc r m opts (n + 1) st).2.1 = true := by
  rw [stitchDo_fetch_step svc r m opts st n hgate]
  have hfl := flagsOk_fetch svc r m opts st
  rcases hsf : stitchFetch svc r m opts st with ⟨stx, evsx, outx⟩
  rw [hsf] at hfl
  dsimp only at hfl
  cases outx with
  | settled res =>
    dsimp only
    exact hfl
  | retry =>
    obtain ⟨t, -, -, hevs⟩ := stitchFetch_retry_inv svc r m opts st (by rw [hsf])
    rw [hsf] at hevs
    dsimp only at hevs
    have hflag := stitchFetch_retry_flag svc r m opts st (by rw [hsf])
    dsimp only
    subst hevs
    simp only [List.cons_append, List.nil_append, flagsOk_cons_primary,
      flagsOk_cons_refresh, hflag]
    simp [ihF stx]

/-- Every network call of a dispatch chain carries the caller's resource,
method and non-flag options, and `noAuth` primaries have no
`Authorization` header. -/
theorem stitchDo_evOk (svc : Svc) (r m : String) :
    ∀ (fuel : Nat) (opts : DoOptions) (st : St) (e : Ev),
      e ∈ (stitchDo svc r m opts fuel st).2.1 → evOk r m opts e := by
  intro fuel
  induction fuel with
  | zero =>
    intro opts st e he
    simp [stitchDo] at he
  | succ n ih =>
    intro opts st
    have ihE : ∀ st2 e, e ∈ (stitchDo svc r m
        { opts with refreshOnFailure := false } n st2).2.1 →
        evOk r m { opts with refreshOnFailure := false } e :=
      fun st2 e he => ih _ st2 e he
    by_cases hna : opts.noAuth = true
    · exact stitchDo_fetch_evOk svc r m opts st n (Or.inl hna) ihE
    · have hna' : opts.noAuth = false := by simpa using hna
      cases hσ : st.store with
      | none =>
        rw [stitchDo_noStore svc r m opts st n hna' hσ]
        intro e he
        simp at he
      | some sess =>
        by_cases hpro : opts.useRefreshToken = false ∧ isAccessTokenExpired svc sess = true
        · cases href : svc.refreshResp st.nR with
          | success t =>
            rw [stitchDo_proactive_step svc r m opts st sess t n hna' hpro.1 hσ hpro.2 href]
            dsimp only
            intro e he
            rw [List.mem_cons] at he
            rcases he with rfl | he
            · trivial
            · exact evOk_flag_indep r m opts e (ihE _ e he)
          | failure inv msg =>
            rw [stitchDo_proactive_fail svc r m opts st sess inv msg n hna' hpro.1 hσ hpro.2 href]
            intro e he
            rw [List.mem_singleton] at he
            subst he
            trivial
        · exact stitchDo_fetch_evOk svc r m opts st n
            (Or.inr ⟨sess, hσ, skip_of_not_pro opts svc sess hpro⟩) ihE

/-- In every dispatch chain, any primary call that comes after a renewal
call ran with `refreshOnFailure = false`. -/
theorem stitchDo_flagsOk (svc : Svc) (r m : String) :
    ∀ (fuel : Nat) (opts : DoOptions) (st : St),
      flagsOk opts.refreshOnFailure (stitchDo svc r m opts fuel st).2.1 = true := by
  intro fuel
  induction fuel with
  | zero =>
    intro opts st
    simp [stitchDo, flagsOk]
  | succ n ih =>
    intro opts st
    have ihF : ∀ st2, flagsOk false (stitchDo svc r m
        { opts with refreshOnFailure := false } n st2).2.1 = true :=
      fun st2 => ih { opts with refreshOnFailure := false } st2
    by_cases hna : opts.noAuth = true
    · exact stitchDo_fetch_flagsOk svc r m opts st n (Or.inl hna) ihF
    · have hna' : opts.noAuth = false := by simpa using hna
      cases hσ : st.store with
      | none =>
        rw [stitchDo_noStore svc r m opts st n hna' hσ]
        rfl
      | some sess =>
        by_cases hpro : opts.useRefreshToken = false ∧ isAccessTokenExpired svc sess = true
        · cases href : svc.refreshResp st.nR with
          | success t =>
            rw [stitchDo_proactive_step svc r m opts st sess t n hna' hpro.1 hσ hpro.2 href]
            dsimp only
            rw [flagsOk_cons_refresh]
            exact ihF _
          | failure inv msg =>
            rw [stitchDo_proactive_fail svc r m opts st sess inv msg n hna' hpro.1 hσ hpro.2 href]
            rfl
        · exact stitchDo_fetch_flagsOk svc r m opts st n
            (Or.inr ⟨sess, hσ, skip_of_not_pro opts svc sess hpro⟩) ihF

/-- When every successfully minted token is non-expired, two units of fuel
settle every dispatch: the recursion depth is at most 2. -/
theorem stitchDo_fresh_settles (svc : Svc) (r m : String)
    (hmint : ∀ k t, svc.refreshResp k = .success t → svc.expired t = false) :
    ∀ (opts : DoOptions) (st : St) (n : Nat),
      (stitchDo svc r m opts (n + 2) st).2.2.isSome = true := by
  intro opts st n
  have hfreshStore : ∀ stx t, svc.refreshResp (stx : St).nR = .success t →
      ∀ sess, stx.store = some sess →
      isAccessTokenExpired svc ({ sess with accessToken := some t } : Session) = false := by
    intro stx t href sess _
    simpa [isAccessTokenExpired] using hmint _ t href
  by_cases hna : opts.noAuth = true
  · rw [stitchDo_fetch_step svc r m opts st (n + 1) (Or.inl hna)]
    rcases hsf : stitchFetch svc r m opts st with ⟨stx, evsx, outx⟩
    cases outx with
    | settled res => simp
    | retry =>
      obtain ⟨t, href, hstore, -⟩ := stitchFetch_retry_inv svc r m opts st (by rw [hsf])
      rw [hsf] at hstore
      dsimp only at hstore
      dsimp only
      cases hσ : st.store with
      | none =>
        rw [hσ] at hstore
        exact stitchDo_fetch_flag_false_isSome svc r m _ stx n rfl (Or.inl hna)
      | some sess =>
        exact stitchDo_fetch_flag_false_isSome svc r m _ stx n rfl (Or.inl hna)
  · have hna' : opts.noAuth = false := by simpa using hna
    cases hσ : st.store with
    | none =>
      rw [stitchDo_noStore svc r m opts st (n + 1) hna' hσ]
      rfl
    | some sess =>
      by_cases hpro : opts.useRefreshToken = false ∧ isAccessTokenExpired svc sess = true
      · cases href : svc.refreshResp st.nR with
        | success t =>
          rw [stitchDo_proactive_step svc r m opts st sess t (n + 1) hna' hpro.1 hσ hpro.2 href]
          dsimp only
          exact stitchDo_fetch_flag_false_isSome svc r m _ _ n rfl
            (Or.inr ⟨{ sess with accessToken := some t }, rfl,
              Or.inr (by simpa [isAccessTokenExpired] using hmint _ t href)⟩)
        | failure inv msg =>
          rw [stitchDo_proactive_fail svc r m opts st sess inv msg (n + 1) hna' hpro.1 hσ hpro.2 href]
          rfl
      · rw [stitchDo_fetch_step svc r m opts st (n + 1)
          (Or.inr ⟨sess, hσ, skip_of_not_pro opts svc sess hpro⟩)]
        rcases hsf : stitchFetch svc r m opts st with ⟨stx, evsx, outx⟩
        cases outx with
        | settled res => simp
        | retry =>
          obtain ⟨t, href, hstore, -⟩ := stitchFetch_retry_inv svc r m opts st (by rw [hsf])
          rw [hsf] at hstore
          dsimp only at hstore
          rw [hσ] at hstore
          dsimp only
          exact stitchDo_fetch_flag_false_isSome svc r m _ stx n rfl
            (Or.inr ⟨{ sess with accessToken := some t }, by rw [hstore]; rfl,
              Or.inr (by simpa [isAccessTokenExpired] using hmint _ t href)⟩)

/-! ### Legacy-client lemmas -/

theorem refreshTokenB_evs (svc : BSvc) (st : BSt) :
    (refreshTokenB svc st).2.1 = [BEv.refreshCall st.storage.refreshTok] := by
  simp only [refreshTokenB]
  split_ifs <;> rfl

/-- A legacy dispatch whose two optional parameters default to
`refreshOnFailure = false`, `useRefreshToken = false` makes only primary
calls with both flags false and never retries. -/
theorem doAuthed_rof_false_retryOk (svc : BSvc) (r m : String) (b : Option String) :
    ∀ (fuel : Nat) (rofArg urtArg : Option Bool) (st : BSt),
      rofArg.getD true = false → urtArg.getD false = false →
      bRetryOk (doAuthed svc r m b rofArg urtArg fuel st).2.1 = true := by
  intro fuel rofArg urtArg st hrof hurt
  cases fuel with
  | zero => simp [doAuthed, bRetryOk]
  | succ n =>
    cases hua : st.storage.userAuth with
    | none => simp [doAuthed, hua, bRetryOk]
    | some a =>
      simp only [doAuthed, hua, hrof, hurt]
      split_ifs <;> simp [bRetryOk, hrof, hurt]

/-- In every legacy dispatch chain, any primary call that comes after a
renewal call ran with `refreshOnFailure = false` and with
`useRefreshToken` reset to its default `false`. -/
theorem doAuthed_bFlagsOk (svc : BSvc) (r m : String) (b : Option String) :
    ∀ (fuel : Nat) (rofArg urtArg : Option Bool) (st : BSt),
      bFlagsOk (doAuthed svc r m b rofArg urtArg fuel st).2.1 = true := by
  intro fuel rofArg urtArg st
  cases fuel with
  | zero => simp [doAuthed, bFlagsOk]
  | succ n =>
    cases hua : st.storage.userAuth with
    | none => simp [doAuthed, hua, bFlagsOk]
    | some a =>
      simp only [doAuthed, hua]
      split_ifs <;> try simp [bFlagsOk, bRetryOk]
      split
      case _ st2 revs e heq =>
        have hrevs := refreshTokenB_evs svc ⟨st.storage, st.nR, st.nP + 1⟩
        rw [heq] at hrevs
        dsimp only at hrevs
        subst hrevs
        simp [bFlagsOk, bRetryOk]
      case _ st2 revs heq =>
        have hrevs := refreshTokenB_evs svc ⟨st.storage, st.nR, st.nP + 1⟩
        rw [heq] at hrevs
        dsimp only at hrevs
        subst hrevs
        simp only [bFlagsOk, List.cons_append, List.nil_append]
        exact doAuthed_rof_false_retryOk svc r m b n (some false) none st2 rfl rfl

/-- Every call of a legacy dispatch chain carries the caller's resource,
method and body. -/
theorem doAuthed_bEvOk (svc : BSvc) (r m : String) (b : Option String) :
    ∀ (fuel : Nat) (rofArg urtArg : Option Bool) (st : BSt) (e : BEv),
      e ∈ (doAuthed svc r m b rofArg urtArg fuel st).2.1 → bEvOk r m b e := by
  intro fuel
  induction fuel with
  | zero =>
    intro rofArg urtArg st e he
    simp [doAuthed] at he
  | succ n ih =>
    intro rofArg urtArg st e
    cases hua : st.storage.userAuth with
    | none =>
      intro he
      simp [doAuthed, hua] at he
    | some a =>
      simp only [doAuthed, hua]
      split_ifs <;> intro he
      case _ =>
        rw [List.mem_singleton] at he
        subst he
        exact ⟨rfl, rfl, rfl⟩
      case _ =>
        rw [List.mem_singleton] at he
        subst he
        exact ⟨rfl, rfl, rfl⟩
      case _ =>
        revert he
        split
        case _ st2 revs e2 heq =>
          have hrevs := refreshTokenB_evs svc ⟨st.storage, st.nR, st.nP + 1⟩
          rw [heq] at hrevs
          dsimp only at hrevs
          subst hrevs
          intro he
          rw [List.mem_cons, List.mem_singleton] at he
          rcases he with rfl | rfl
          · exact ⟨rfl, rfl, rfl⟩
          · trivial
        case _ st2 revs heq =>
          have hrevs := refreshTokenB_evs svc ⟨st.storage, st.nR, st.nP + 1⟩
          rw [heq] at hrevs
          dsimp only at hrevs
          subst hrevs
          intro he
          dsimp only at he
          rw [List.mem_cons, List.cons_append, List.mem_cons] at he
          rcases he with rfl | rfl | he
          · exact ⟨rfl, rfl, rfl⟩
          · trivial
          · rw [List.nil_append] at he
            exact ih (some false) none st2 e he
      case _ =>
        rw [List.mem_singleton] at he
        subst he
        exact ⟨rfl, rfl, rfl⟩
      case _ =>
        rw [List.mem_singleton] at he
        subst he
        exact ⟨rfl, rfl, rfl⟩

/-- A legacy fetch whose response is a structured non-invalid-session
error resolves with no value. -/
theorem doAuthed_json_other (svc : BSvc) (r m : String) (b : Option String)
    (rofArg urtArg : Option Bool) (st : BSt) (a : BAuth) (n : Nat)
    (hua : st.storage.userAuth = some a)
    (h : ¬(200 ≤ (svc.primaryResp st.nP).status ∧ (svc.primaryResp st.nP).status < 300))
    (hct : (svc.primaryResp st.nP).contentType = "application/json")
    (hec : (svc.primaryResp st.nP).json.errorCode ≠ some "InvalidSession") :
    doAuthed svc r m b rofArg urtArg (n + 1) st =
      ({ st with nP := st.nP + 1 },
       [BEv.primaryCall r m b (bBearer (urtArg.getD false) st a)
         (rofArg.getD true) (urtArg.getD false)],
       some (.ok none)) := by
  simp only [doAuthed, hua]
  rw [if_neg h, if_pos hct, if_neg hec]

/-- A legacy fetch whose response carries no JSON body raises the
status-text error. -/
theorem doAuthed_not_json (svc : BSvc) (r m : String) (b : Option String)
    (rofArg urtArg : Option Bool) (st : BSt) (a : BAuth) (n : Nat)
    (hua : st.storage.userAuth = some a)
    (h : ¬(200 ≤ (svc.primaryResp st.nP).status ∧ (svc.primaryResp st.nP).status < 300))
    (hct : (svc.primaryResp st.nP).contentType ≠ "application/json") :
    doAuthed svc r m b rofArg urtArg (n + 1) st =
      ({ st with nP := st.nP + 1 },
       [BEv.primaryCall r m b (bBearer (urtArg.getD false) st a)
         (rofArg.getD true) (urtArg.getD false)],
       some (.error (.statusTextError (svc.primaryResp st.nP).statusText
         (svc.primaryResp st.nP)))) := by
  simp only [doAuthed, hua]
  rw [if_neg h, if_neg hct]

/-- `_refreshToken` on a 200 renewal response: stores the returned access
token and resolves. -/
theorem refreshTokenB_200 (svc : BSvc) (st : BSt)
    (h : (svc.refreshResp st.nR).status = 200) :
    refreshTokenB svc st =
      (⟨setAccessToken (svc.refreshResp st.nR).json.accessToken st.storage,
          st.nR + 1, st.nP⟩,
       [BEv.refreshCall st.storage.refreshTok], .ok ()) := by
  simp only [refreshTokenB]
  rw [if_neg (by simp [h])]

/-- The legacy no-retry path, lines 524-528: invalid session with the
refresh-on-failure parameter (defaulted) false clears both storage keys
and throws `Error(json)` with zero renewal calls. -/
theorem doAuthed_invalid_noRetry (svc : BSvc) (r m : String) (b : Option String)
    (rofArg urtArg : Option Bool) (st : BSt) (a : BAuth) (n : Nat)
    (hua : st.storage.userAuth = some a)
    (hrof : rofArg.getD true = false)
    (hinv : bInvalidResp (svc.primaryResp st.nP)) :
    doAuthed svc r m b rofArg urtArg (n + 1) st =
      (⟨⟨none, none⟩, st.nR, st.nP + 1⟩,
       [BEv.primaryCall r m b (bBearer (urtArg.getD false) st a) false
         (urtArg.getD false)],
       some (.error (.errJson (svc.primaryResp st.nP).json))) := by
  obtain ⟨h1, h2, h3⟩ := hinv
  simp only [doAuthed, hua, hrof]
  rw [if_neg h1, if_pos h2, if_pos h3]
  simp [clearAuth]

/-- A legacy dispatch re-invoked with the retry arguments of line 531
settles in one step: exactly one primary call, sent with the stored
access token and both flags false. -/
theorem doAuthed_rof_false_settles (svc : BSvc) (r m : String) (b : Option String)
    (st : BSt) (a : BAuth) (n : Nat) (hua : st.storage.userAuth = some a) :
    (doAuthed svc r m b (some false) none (n + 1) st).2.1 =
      [BEv.primaryCall r m b a.accessToken false false] ∧
    (doAuthed svc r m b (some false) none (n + 1) st).2.2.isSome = true := by
  simp only [doAuthed, hua, Option.getD_some, Option.getD_none]
  split_ifs <;> simp_all [bBearer]

/-- The legacy reactive path, lines 524-533: invalid session with the
refresh-on-failure parameter true and a 200 renewal response leads to a
re-invocation carrying only resource, method and body, with the
`refreshOnFailure` argument false and `useRefreshToken` omitted. -/
theorem doAuthed_invalid_refresh200_step (svc : BSvc) (r m : String)
    (b : Option String) (rofArg urtArg : Option Bool) (st : BSt) (a : BAuth) (n : Nat)
    (hua : st.storage.userAuth = some a)
    (hrof : rofArg.getD true = true)
    (hinv : bInvalidResp (svc.primaryResp st.nP))
    (h200 : (svc.refreshResp st.nR).status = 200) :
    doAuthed svc r m b rofArg urtArg (n + 1) st =
      (let out := doAuthed svc r m b (some false) none n
        ⟨setAccessToken (svc.refreshResp st.nR).json.accessToken st.storage,
          st.nR + 1, st.nP + 1⟩
       (out.1,
        BEv.primaryCall r m b (bBearer (urtArg.getD false) st a) true
            (urtArg.getD false)
          :: BEv.refreshCall st.storage.refreshTok :: out.2.1,
        out.2.2)) := by
  obtain ⟨h1, h2, h3⟩ := hinv
  simp only [doAuthed, hua, hrof]
  rw [if_neg h1, if_pos h2, if_pos h3, if_neg (by simp)]
  rw [refreshTokenB_200 svc ⟨st.storage, st.nR, st.nP + 1⟩ h200]
  simp

/-- Claim C1: a dispatch with `noAuth = false`, `useRefreshToken = false`,
an authenticated identity and an expired access token performs exactly one
renewal call followed by exactly one primary call, and that primary call
runs with `refreshOnFailure` forced to false regardless of the flag the
caller supplied (the environment hypotheses say the renewal succeeds and
mints a non-expired token, as in the spec scenario). -/
theorem c1_expired_token_refresh_then_single_primary
    (svc : Svc) (sess : Session) (opts : DoOptions) (r m t : String) (n : Nat)
    (hnoAuth : opts.noAuth = false) (hurt : opts.useRefreshToken = false)
    (hexp : isAccessTokenExpired svc sess = true)
    (href : svc.refreshResp 0 = .success t) (hfresh : svc.expired t = false) :
    (stitchDo svc r m opts (n + 2) ⟨some sess, 0, 0⟩).2.1 =
      [Ev.refreshCall (some sess.refreshToken),
       Ev.primaryCall r m (some ("Bearer " ++ t))
         { opts with refreshOnFailure := false }] ∧
    (stitchDo svc r m opts (n + 2) ⟨some sess, 0, 0⟩).2.2.isSome = true := by
  rw [show n + 2 = n + 1 + 1 from rfl]
  rw [stitchDo_proactive_step svc r m opts ⟨some sess, 0, 0⟩ sess t (n + 1)
    hnoAuth hurt rfl hexp href]
  dsimp only
  have hgate2 : ({ opts with refreshOnFailure := false } : DoOptions).noAuth = true ∨
      ∃ s2, (⟨some { sess with accessToken := some t }, 0 + 1, 0⟩ : St).store = some s2 ∧
        (({ opts with refreshOnFailure := false } : DoOptions).useRefreshToken = true ∨
          isAccessTokenExpired svc s2 = false) :=
    Or.inr ⟨{ sess with accessToken := some t }, rfl,
      Or.inr (by simpa [isAccessTokenExpired] using hfresh)⟩
  rw [stitchDo_fetch_step svc r m { opts with refreshOnFailure := false }
    ⟨some { sess with accessToken := some t }, 0 + 1, 0⟩ n hgate2]
  obtain ⟨hevs, res, hout⟩ := stitchFetch_flag_false_settles svc r m
    { opts with refreshOnFailure := false }
    ⟨some { sess with accessToken := some t }, 0 + 1, 0⟩ rfl
  rcases hsf : stitchFetch svc r m { opts with refreshOnFailure := false }
    ⟨some { sess with accessToken := some t }, 0 + 1, 0⟩ with ⟨stx, evsx, outx⟩
  rw [hsf] at hevs hout
  dsimp only at hevs hout
  subst hout
  subst hevs
  simp [stitchAH, bearerToken, hnoAuth, hurt]

theorem c1_witness :
    wSvc.expired "A1" = true ∧ isAccessTokenExpired wSvc wSession = true ∧
    wSvc.refreshResp 0 = .success "A2" ∧ wSvc.expired "A2" = false ∧
    (stitchDo wSvc "/auth/me" "GET" {} 2 ⟨some wSession, 0, 0⟩).2.1 =
      [Ev.refreshCall (some "R1"),
       Ev.primaryCall "/auth/me" "GET" (some "Bearer A2")
         { refreshOnFailure := false }] :=
  ⟨rfl, rfl, rfl, rfl, by
    have h := (c1_expired_token_refresh_then_single_primary wSvc wSession {}
      "/auth/me" "GET" "A2" 0 rfl rfl rfl rfl rfl).1
    exact h⟩

/-- Claim C2: in both clients, a dispatch with `refreshOnFailure = true`
whose primary response is a structured invalid-session error performs
exactly one renewal call and one retried primary call; if the retried
call again reports an invalid session, the session store is cleared, the
error surfaces, and no further renewal or retry occurs (the trace is
exactly those three calls whatever the remaining fuel).  The environment
hypotheses pin the renewal success the claim presupposes; for
`StitchClient._do` the gate hypotheses place the first network call at
the primary (`useRefreshToken = true`, or a non-expired token). -/
theorem c2_reactive_refresh_exactly_one_retry (svc : Svc) (bsvc : BSvc) (r m : String) :
    (∀ (sess : Session) (opts : DoOptions) (t : String) (n : Nat),
      opts.refreshOnFailure = true →
      (opts.useRefreshToken = true ∨ isAccessTokenExpired svc sess = false) →
      isInvalidSessionResp (svc.primaryResp 0) →
      svc.refreshResp 0 = .success t →
      (opts.useRefreshToken = true ∨ svc.expired t = false) →
      countRefresh (stitchDo svc r m opts (n + 2) ⟨some sess, 0, 0⟩).2.1 = 1 ∧
      countPrimary (stitchDo svc r m opts (n + 2) ⟨some sess, 0, 0⟩).2.1 = 2 ∧
      (stitchDo svc r m opts (n + 2) ⟨some sess, 0, 0⟩).2.2.isSome = true ∧
      (isInvalidSessionResp (svc.primaryResp 1) →
        stitchDo svc r m opts (n + 2) ⟨some sess, 0, 0⟩ =
          (⟨none, 1, 2⟩,
           [Ev.primaryCall r m (stitchAH opts (some sess)) opts,
            Ev.refreshCall (some sess.refreshToken),
            Ev.primaryCall r m
              (stitchAH { opts with refreshOnFailure := false }
                (some { sess with accessToken := some t }))
              { opts with refreshOnFailure := false }],
           some (.error (.stitchError (svc.primaryResp 1).json.error
             (svc.primaryResp 1).json.errorCode
             (svc.primaryResp 1) (svc.primaryResp 1).json))))) ∧
    (∀ (b : Option String) (rofArg urtArg : Option Bool) (stg : BStorage)
        (a : BAuth) (n : Nat),
      stg.userAuth = some a →
      rofArg.getD true = true →
      bInvalidResp (bsvc.primaryResp 0) →
      (bsvc.refreshResp 0).status = 200 →
      countRefreshB (doAuthed bsvc r m b rofArg urtArg (n + 2) ⟨stg, 0, 0⟩).2.1 = 1 ∧
      countPrimaryB (doAuthed bsvc r m b rofArg urtArg (n + 2) ⟨stg, 0, 0⟩).2.1 = 2 ∧
      (doAuthed bsvc r m b rofArg urtArg (n + 2) ⟨stg, 0, 0⟩).2.2.isSome = true ∧
      (bInvalidResp (bsvc.primaryResp 1) →
        doAuthed bsvc r m b rofArg urtArg (n + 2) ⟨stg, 0, 0⟩ =
          (⟨⟨none, none⟩, 1, 2⟩,
           [BEv.primaryCall r m b (bBearer (urtArg.getD false) ⟨stg, 0, 0⟩ a) true
             (urtArg.getD false),
            BEv.refreshCall stg.refreshTok,
            BEv.primaryCall r m b (bsvc.refreshResp 0).json.accessToken false false],
           some (.error (.errJson (bsvc.primaryResp 1).json))))) := by
  constructor
  · intro sess opts t n hflag hgate0 hinv0 href hgate1
    rw [show n + 2 = n + 1 + 1 from rfl]
    rw [stitchDo_fetch_step svc r m opts ⟨some sess, 0, 0⟩ (n + 1)
      (Or.inr ⟨sess, rfl, hgate0⟩)]
    have hf : stitchFetch svc r m opts ⟨some sess, 0, 0⟩ =
        (⟨some { sess with accessToken := some t }, 1, 1⟩,
         [Ev.primaryCall r m (stitchAH opts (some sess)) opts,
          Ev.refreshCall (some sess.refreshToken)],
         .retry) :=
      stitchFetch_invalid_refreshOk svc r m opts ⟨some sess, 0, 0⟩ t hflag hinv0 href
    rw [hf]
    dsimp only
    have hgate2 : ({ opts with refreshOnFailure := false } : DoOptions).noAuth = true ∨
        ∃ s2, (⟨some { sess with accessToken := some t }, 1, 1⟩ : St).store = some s2 ∧
          (({ opts with refreshOnFailure := false } : DoOptions).useRefreshToken = true ∨
            isAccessTokenExpired svc s2 = false) := by
      rcases hgate1 with h | h
      · exact Or.inr ⟨{ sess with accessToken := some t }, rfl, Or.inl h⟩
      · exact Or.inr ⟨{ sess with accessToken := some t }, rfl,
          Or.inr (by simpa [isAccessTokenExpired] using h)⟩
    rw [stitchDo_fetch_step svc r m { opts with refreshOnFailure := false }
      ⟨some { sess with accessToken := some t }, 1, 1⟩ n hgate2]
    refine ⟨?_, ?_, ?_, ?_⟩
    case _ =>
      obtain ⟨hevs, res, hout⟩ := stitchFetch_flag_false_settles svc r m
        { opts with refreshOnFailure := false }
        ⟨some { sess with accessToken := some t }, 1, 1⟩ rfl
      rcases hsf : stitchFetch svc r m { opts with refreshOnFailure := false }
        ⟨some { sess with accessToken := some t }, 1, 1⟩ with ⟨stx, evsx, outx⟩
      rw [hsf] at hevs hout
      dsimp only at hevs hout
      subst hout
      subst hevs
      simp [countRefresh]
    case _ =>
      obtain ⟨hevs, res, hout⟩ := stitchFetch_flag_false_settles svc r m
        { opts with refreshOnFailure := false }
        ⟨some { sess with accessToken := some t }, 1, 1⟩ rfl
      rcases hsf : stitchFetch svc r m { opts with refreshOnFailure := false }
        ⟨some { sess with accessToken := some t }, 1, 1⟩ with ⟨stx, evsx, outx⟩
      rw [hsf] at hevs hout
      dsimp only at hevs hout
      subst hout
      subst hevs
      simp [countPrimary]
    case _ =>
      obtain ⟨hevs, res, hout⟩ := stitchFetch_flag_false_settles svc r m
        { opts with refreshOnFailure := false }
        ⟨some { sess with accessToken := some t }, 1, 1⟩ rfl
      rcases hsf : stitchFetch svc r m { opts with refreshOnFailure := false }
        ⟨some { sess with accessToken := some t }, 1, 1⟩ with ⟨stx, evsx, outx⟩
      rw [hsf] at hevs hout
      dsimp only at hevs hout
      subst hout
      subst hevs
      simp
    case _ =>
      intro hinv1
      rw [stitchFetch_invalid_noRetry svc r m { opts with refreshOnFailure := false }
        ⟨some { sess with accessToken := some t }, 1, 1⟩ rfl hinv1]
      rfl
  · intro b rofArg urtArg stg a n hua hrof hinv0 h200
    rw [show n + 2 = n + 1 + 1 from rfl]
    rw [doAuthed_invalid_refresh200_step bsvc r m b rofArg urtArg ⟨stg, 0, 0⟩ a
      (n + 1) hua hrof hinv0 h200]
    dsimp only
    have hua2 : (setAccessToken (bsvc.refreshResp 0).json.accessToken stg).userAuth =
        some { a with accessToken := (bsvc.refreshResp 0).json.accessToken } := by
      simp [setAccessToken, hua]
    obtain ⟨hevs, hsome⟩ := doAuthed_rof_false_settles bsvc r m b
      ⟨setAccessToken (bsvc.refreshResp 0).json.accessToken stg, 0 + 1, 0 + 1⟩
      { a with accessToken := (bsvc.refreshResp 0).json.accessToken } n hua2
    refine ⟨?_, ?_, ?_, ?_⟩
    case _ =>
      rw [show (0 : Nat) + 1 = 1 from rfl] at hevs
      rw [hevs]
      rfl
    case _ =>
      rw [show (0 : Nat) + 1 = 1 from rfl] at hevs
      rw [hevs]
      rfl
    case _ =>
      rw [show (0 : Nat) + 1 = 1 from rfl] at hsome
      exact hsome
    case _ =>
      intro hinv1
      rw [doAuthed_invalid_noRetry bsvc r m b (some false) none
        ⟨setAccessToken (bsvc.refreshResp 0).json.accessToken stg, 0 + 1, 0 + 1⟩
        { a with accessToken := (bsvc.refreshResp 0).json.accessToken } n hua2 rfl hinv1]
      rfl

theorem c2_witness :
    ({} : DoOptions).refreshOnFailure = true ∧
    isAccessTokenExpired invSvc wSession = false ∧
    isInvalidSessionResp (invSvc.primaryResp 0) ∧
    invSvc.refreshResp 0 = .success "A2" ∧ invSvc.expired "A2" = false ∧
    countRefresh (stitchDo invSvc "/x" "GET" {} 2 ⟨some wSession, 0, 0⟩).2.1 = 1 ∧
    countPrimary (stitchDo invSvc "/x" "GET" {} 2 ⟨some wSession, 0, 0⟩).2.1 = 2 ∧
    bInvalidResp (bInvSvc.primaryResp 0) ∧
    (bInvSvc.refreshResp 0).status = 200 ∧
    countRefreshB (doAuthed bInvSvc "/x" "GET" none none none 2 wBSt).2.1 = 1 ∧
    countPrimaryB (doAuthed bInvSvc "/x" "GET" none none none 2 wBSt).2.1 = 2 :=
  ⟨rfl, rfl, by decide, rfl, rfl,
    ((c2_reactive_refresh_exactly_one_retry invSvc bInvSvc "/x" "GET").1 wSession {}
      "A2" 0 rfl (Or.inr rfl) (by decide) rfl (Or.inr rfl)).1,
    ((c2_reactive_refresh_exactly_one_retry invSvc bInvSvc "/x" "GET").1 wSession {}
      "A2" 0 rfl (Or.inr rfl) (by decide) rfl (Or.inr rfl)).2.1,
    by decide, rfl,
    ((c2_reactive_refresh_exactly_one_retry invSvc bInvSvc "/x" "GET").2 none none none
      ⟨some ⟨"u1", "A1"⟩, some "R1"⟩ ⟨"u1", "A1"⟩ 0 rfl rfl (by decide) rfl).1,
    ((c2_reactive_refresh_exactly_one_retry invSvc bInvSvc "/x" "GET").2 none none none
      ⟨some ⟨"u1", "A1"⟩, some "R1"⟩ ⟨"u1", "A1"⟩ 0 rfl rfl (by decide) rfl).2.1⟩

/-- Claim C3 counterexample: `BaasClient._doAuthed` with
`refreshOnFailure = false` and an invalid-session response does clear the
storage and raise with zero renewal calls, but the raised error is the
`new Error(json)` of line 527: no response object can be recovered from
it (`bErrResponse` is `none`), contradicting the claim's "the error
(carrying the response and the decoded JSON body) is raised".  (Only the
status-text error of lines 537-539 attaches `.response` in this
client.) -/
theorem c3_counterexample :
    doAuthed bInvSvc "/x" "GET" none (some false) none 1 wBSt =
      (⟨⟨none, none⟩, 0, 1⟩,
       [BEv.primaryCall "/x" "GET" none "A1" false false],
       some (.error (.errJson invalidSessionResponse.json))) ∧
    bErrResponse (.errJson invalidSessionResponse.json) = none := by
  constructor <;> rfl

/-- Claim C3 amended: a `StitchClient._do` dispatch with
`refreshOnFailure = false` whose response is a structured invalid-session
error clears the session store, raises the structured error carrying the
response and its decoded JSON body, and makes zero renewal calls (the
gate hypothesis places the first network call at the primary);
`BaasClient._doAuthed` likewise clears both storage keys and raises with
zero renewal calls, but its error carries neither the response nor an
attached decoded body. -/
theorem c3_invalid_session_no_retry_clears_and_raises
    (svc : Svc) (bsvc : BSvc) (r m : String) :
    (∀ (opts : DoOptions) (σ : Option Session) (n : Nat),
      opts.refreshOnFailure = false →
      (opts.noAuth = true ∨ ∃ sess, σ = some sess ∧
        (opts.useRefreshToken = true ∨ isAccessTokenExpired svc sess = false)) →
      isInvalidSessionResp (svc.primaryResp 0) →
      stitchDo svc r m opts (n + 1) ⟨σ, 0, 0⟩ =
        (⟨none, 0, 1⟩,
         [Ev.primaryCall r m (stitchAH opts σ) opts],
         some (.error (.stitchError (svc.primaryResp 0).json.error
           (svc.primaryResp 0).json.errorCode
           (svc.primaryResp 0) (svc.primaryResp 0).json))) ∧
      countRefresh (stitchDo svc r m opts (n + 1) ⟨σ, 0, 0⟩).2.1 = 0) ∧
    (∀ (b : Option String) (rofArg urtArg : Option Bool) (st : BSt) (a : BAuth) (n : Nat),
      st.storage.userAuth = some a →
      rofArg.getD true = false →
      bInvalidResp (bsvc.primaryResp st.nP) →
      doAuthed bsvc r m b rofArg urtArg (n + 1) st =
        (⟨⟨none, none⟩, st.nR, st.nP + 1⟩,
         [BEv.primaryCall r m b (bBearer (urtArg.getD false) st a) false
           (urtArg.getD false)],
         some (.error (.errJson (bsvc.primaryResp st.nP).json))) ∧
      bErrResponse (.errJson (bsvc.primaryResp st.nP).json) = none) := by
  constructor
  · intro opts σ n hflag hgate hinv
    have hmain : stitchDo svc r m opts (n + 1) ⟨σ, 0, 0⟩ =
        (⟨none, 0, 1⟩,
         [Ev.primaryCall r m (stitchAH opts σ) opts],
         some (.error (.stitchError (svc.primaryResp 0).json.error
           (svc.primaryResp 0).json.errorCode
           (svc.primaryResp 0) (svc.primaryResp 0).json))) := by
      rw [stitchDo_fetch_step svc r m opts ⟨σ, 0, 0⟩ n hgate]
      rw [stitchFetch_invalid_noRetry svc r m opts ⟨σ, 0, 0⟩ hflag hinv]
    exact ⟨hmain, by rw [hmain]; rfl⟩
  · intro b rofArg urtArg st a n hua hrof hinv
    exact ⟨doAuthed_invalid_noRetry bsvc r m b rofArg urtArg st a n hua hrof hinv, rfl⟩

theorem c3_witness :
    ({ refreshOnFailure := false } : DoOptions).refreshOnFailure = false ∧
    isAccessTokenExpired invSvc wSession = false ∧
    isInvalidSessionResp (invSvc.primaryResp 0) ∧
    stitchDo invSvc "/x" "GET" { refreshOnFailure := false } 1 ⟨some wSession, 0, 0⟩ =
      (⟨none, 0, 1⟩,
       [Ev.primaryCall "/x" "GET" (some "Bearer A1") { refreshOnFailure := false }],
       some (.error (.stitchError "invalid session" (some "InvalidSession")
         invalidSessionResponse invalidSessionResponse.json))) ∧
    bInvalidResp (bInvSvc.primaryResp 0) ∧
    doAuthed bInvSvc "/x" "GET" none (some false) (some true) 1 wBSt =
      (⟨⟨none, none⟩, 0, 1⟩,
       [BEv.primaryCall "/x" "GET" none "R1" false true],
       some (.error (.errJson invalidSessionResponse.json))) :=
  ⟨rfl, rfl, by decide, by
    have h := ((c3_invalid_session_no_retry_clears_and_raises invSvc bInvSvc
      "/x" "GET").1 { refreshOnFailure := false } (some wSession) 0 rfl
      (Or.inr ⟨wSession, rfl, Or.inr rfl⟩) (by decide)).1
    simpa [stitchAH, bearerToken, wSession, invSvc, invalidSessionResponse] using h,
   by decide, by
    have h := ((c3_invalid_session_no_retry_clears_and_raises invSvc bInvSvc
      "/x" "GET").2 none (some false) (some true) wBSt ⟨"u1", "A1"⟩ 0 rfl rfl
      (by decide)).1
    simpa [bBearer, wBSt, bInvSvc] using h⟩

/-- Claim C4: in both clients, a dispatch made while no authenticated
identity exists fails immediately with the unauthenticated error
(`Must auth first`), makes no network call of either kind, and leaves the
stored state unmodified — `StitchClient._do` when `noAuth = false` and the
store is empty (lines 234-237), `BaasClient._doAuthed` when the stored
auth object is absent (lines 496-498), for any parameter values. -/
theorem c4_unauthenticated_fails_immediately (svc : Svc) (bsvc : BSvc)
    (r m : String) :
    (∀ (opts : DoOptions) (n : Nat), opts.noAuth = false →
      stitchDo svc r m opts (n + 1) ⟨none, 0, 0⟩ =
        (⟨none, 0, 0⟩, [], some (.error .mustAuthFirst))) ∧
    (∀ (b : Option String) (rofArg urtArg : Option Bool) (st : BSt) (n : Nat),
      st.storage.userAuth = none →
      doAuthed bsvc r m b rofArg urtArg (n + 1) st =
        (st, [], some (.error .mustAuthFirst))) := by
  constructor
  · intro opts n h
    simp [stitchDo, h]
  · intro b rofArg urtArg st n hua
    simp [doAuthed, hua]

theorem c4_witness :
    ({} : DoOptions).noAuth = false ∧
    stitchDo wSvc "/functions/call" "POST" {} 1 ⟨none, 0, 0⟩ =
      (⟨none, 0, 0⟩, [], some (.error .mustAuthFirst)) ∧
    (⟨⟨none, some "R1"⟩, 0, 0⟩ : BSt).storage.userAuth = none ∧
    doAuthed bRefreshOkSvc "/functions/call" "POST" none none none 1
      ⟨⟨none, some "R1"⟩, 0, 0⟩ =
      (⟨⟨none, some "R1"⟩, 0, 0⟩, [], some (.error .mustAuthFirst)) :=
  ⟨rfl,
   (c4_unauthenticated_fails_immediately wSvc bRefreshOkSvc
     "/functions/call" "POST").1 {} 0 rfl,
   rfl,
   (c4_unauthenticated_fails_immediately wSvc bRefreshOkSvc
     "/functions/call" "POST").2 none none none ⟨⟨none, some "R1"⟩, 0, 0⟩ 0 rfl⟩

/-- Claim C10: `authenticate` called while the stored session holds an
access token (JS truthiness: present and non-empty) resolves with the
currently authenticated user's id, without invoking the named provider
and without any network call, for every `providerType` value. -/
theorem c10_authenticate_reuses_existing_auth (sess : Session) (t p : String)
    (h1 : sess.accessToken = some t) (h2 : t ≠ "") :
    authenticate (some sess) p = .resolveExisting (some sess.userId) := by
  simp [authenticate, getAccessToken, authedId, h1, h2]

theorem c10_witness :
    wSession.accessToken = some "A1" ∧ "A1" ≠ "" ∧
      authenticate (some wSession) "not-a-real-provider" =
        .resolveExisting (some "u1") :=
  ⟨rfl, by decide,
    c10_authenticate_reuses_existing_auth wSession "A1" "not-a-real-provider" rfl (by decide)⟩

/-- Claim C8: `_refreshToken` makes exactly one network call and never
retries; on a 200 it replaces only the `accessToken` member of the stored
auth object (identity and refresh-token key untouched); on a non-200 JSON
response with the invalid-session code it removes both storage keys before
the error propagates; on any other failure the storage is unchanged and
the error propagates as-is. -/
theorem c8_refresh_token_frame (svc : BSvc) (st : BSt) (resp : Response)
    (hresp : svc.refreshResp st.nR = resp) :
    (refreshTokenB svc st).2.1 = [BEv.refreshCall st.storage.refreshTok] ∧
    (resp.status = 200 →
      refreshTokenB svc st =
        (⟨⟨st.storage.userAuth.map (replaceAccessToken resp.json.accessToken),
            st.storage.refreshTok⟩, st.nR + 1, st.nP⟩,
          [BEv.refreshCall st.storage.refreshTok], .ok ())) ∧
    (resp.status ≠ 200 → resp.contentType = "application/json" →
      resp.json.errorCode = some "InvalidSession" →
      refreshTokenB svc st =
        (⟨⟨none, none⟩, st.nR + 1, st.nP⟩,
          [BEv.refreshCall st.storage.refreshTok], .error (.errJson resp.json))) ∧
    (resp.status ≠ 200 → resp.contentType = "application/json" →
      resp.json.errorCode ≠ some "InvalidSession" →
      refreshTokenB svc st =
        ({ st with nR := st.nR + 1 },
          [BEv.refreshCall st.storage.refreshTok], .error (.errJson resp.json))) ∧
    (resp.status ≠ 200 → resp.contentType ≠ "application/json" →
      refreshTokenB svc st =
        ({ st with nR := st.nR + 1 },
          [BEv.refreshCall st.storage.refreshTok],
            .error (.statusTextError resp.statusText resp))) := by
  subst hresp
  refine ⟨?_, ?_, ?_, ?_, ?_⟩ <;>
    · intros
      simp only [refreshTokenB]
      split_ifs <;> (try simp_all [setAccessToken, clearAuth]) <;> rfl

theorem c8_witness :
    bRefreshOkSvc.refreshResp wBSt.nR = bRefreshOkResponse ∧
    bRefreshOkResponse.status = 200 ∧
    refreshTokenB bRefreshOkSvc wBSt =
      (⟨⟨some ⟨"u1", "A2"⟩, some "R1"⟩, 1, 0⟩,
        [BEv.refreshCall (some "R1")], .ok ()) :=
  ⟨rfl, rfl,
    (c8_refresh_token_frame bRefreshOkSvc wBSt bRefreshOkResponse rfl).2.1 rfl⟩

/-- Claim C5 counterexample: a dispatch with `noAuth = true` and every
other option left at its default (so `refreshOnFailure = true`) whose
response is a structured invalid-session error does trigger a token
refresh: the renewal call appears in the trace, carrying the refresh token
read from the store — contradicting "no token-store read (no identity
check, no expiry check, no refresh)" for every combination of the other
options. -/
theorem c5_counterexample :
    (stitchDo invSvc "/x" "GET" { noAuth := true } 2 ⟨some wSession, 0, 0⟩).2.1 =
      [Ev.primaryCall "/x" "GET" none { noAuth := true },
       Ev.refreshCall (some "R1"),
       Ev.primaryCall "/x" "GET" none { noAuth := true, refreshOnFailure := false }] ∧
    countRefresh (stitchDo invSvc "/x" "GET" { noAuth := true } 2
      ⟨some wSession, 0, 0⟩).2.1 = 1 := by
  constructor <;> rfl

/-- Claim C9 counterexample: with a service whose freshly minted access
tokens are themselves already expired, the proactive path of `_do`
re-invokes dispatch after every refresh without bound: at recursion budget
5 the trace already holds five renewal calls and the chain is still
unfinished — contradicting "at most one refresh-triggered retry" and
"dispatch depth at most 2" for this sequence of service responses. -/
theorem c9_counterexample :
    (stitchDo alwaysExpiredSvc "/x" "GET" {} 5 ⟨some wSession, 0, 0⟩).2.1 =
      [Ev.refreshCall (some "R1"), Ev.refreshCall (some "R1"),
       Ev.refreshCall (some "R1"), Ev.refreshCall (some "R1"),
       Ev.refreshCall (some "R1")] ∧
    (stitchDo alwaysExpiredSvc "/x" "GET" {} 5 ⟨some wSession, 0, 0⟩).2.2 = none := by
  constructor <;> rfl

/-- Claim C6 counterexample: `BaasClient._doAuthed` receiving a non-2xx
JSON response whose error code is not the invalid-session code resolves
with no value (`.ok none`, i.e. the promise fulfils with `undefined`)
instead of raising a structured error — the failure is silently
swallowed. -/
theorem c6_counterexample :
    doAuthed bOtherErrSvc "/x" "GET" none none none 1 wBSt =
      (⟨⟨some ⟨"u1", "A1"⟩, some "R1"⟩, 0, 1⟩,
        [BEv.primaryCall "/x" "GET" none "A1" true false],
        some (.ok none)) := by
  rfl

/-- Claim C7 counterexample: a `BaasClient._doAuthed` call made with
`useRefreshToken = true` and `refreshOnFailure = true` whose first
response is an invalid-session error retries after the refresh, but the
re-invocation at line 531 passes only four arguments: the retried primary
call runs with `useRefreshToken = false` (sending the fresh access token
`A2`, not the refresh token) — the options are not identical to the outer
call's. -/
theorem c7_counterexample :
    (doAuthed bInvThenOkSvc "/x" "GET" none (some true) (some true) 2 wBSt).2.1 =
      [BEv.primaryCall "/x" "GET" none "R1" true true,
       BEv.refreshCall (some "R1"),
       BEv.primaryCall "/x" "GET" none "A2" false false] := by
  rfl

/-- Claim C5 amended: a `noAuth = true` dispatch never attaches an
`Authorization` header to any primary call; and when additionally
`refreshOnFailure = false`, its trace and result are independent of the
token-store contents (no store read) and contain zero renewal calls.
(With `refreshOnFailure = true`, an invalid-session response does trigger
a store-reading refresh — see the counterexample.) -/
theorem c5_noauth_amended (svc : Svc) (r m : String) :
    (∀ (opts : DoOptions) (fuel : Nat) (st : St) (res met : String)
        (ah : Option String) (o : DoOptions),
      opts.noAuth = true →
      Ev.primaryCall res met ah o ∈ (stitchDo svc r m opts fuel st).2.1 →
      ah = none) ∧
    (∀ (opts : DoOptions) (n : Nat) (σ σ' : Option Session),
      opts.noAuth = true → opts.refreshOnFailure = false →
      (stitchDo svc r m opts (n + 1) ⟨σ, 0, 0⟩).2 =
        (stitchDo svc r m opts (n + 1) ⟨σ', 0, 0⟩).2 ∧
      countRefresh (stitchDo svc r m opts (n + 1) ⟨σ, 0, 0⟩).2.1 = 0) := by
  constructor
  · intro opts fuel st res met ah o hna hmem
    obtain ⟨-, -, -, hno, -, -, -, -, -, hah⟩ :=
      stitchDo_evOk svc r m fuel opts st _ hmem
    exact hah (by rw [hno, hna])
  · intro opts n σ σ' hna hflag
    have key : ∀ τ : Option Session,
        (stitchDo svc r m opts (n + 1) ⟨τ, 0, 0⟩).2 =
          ([Ev.primaryCall r m none opts],
            some (stitchClassify (svc.primaryResp 0))) := by
      intro τ
      rw [stitchDo_fetch_step svc r m opts ⟨τ, 0, 0⟩ n (Or.inl hna)]
      by_cases h1 : 200 ≤ (svc.primaryResp 0).status ∧ (svc.primaryResp 0).status < 300
      · rw [stitchFetch_ok svc r m opts ⟨τ, 0, 0⟩ h1]
        simp [stitchAH, hna, stitchClassify, h1]
      · by_cases h2 : (svc.primaryResp 0).contentType = JSONTYPE
        · by_cases h3 : (svc.primaryResp 0).json.errorCode = some ErrInvalidSession
          · rw [stitchFetch_invalid_noRetry svc r m opts ⟨τ, 0, 0⟩ hflag ⟨h1, h2, h3⟩]
            simp [stitchAH, hna, stitchClassify, h1, h2]
          · rw [stitchFetch_json_other svc r m opts ⟨τ, 0, 0⟩ h1 h2 h3]
            simp [stitchAH, hna, stitchClassify, h1, h2]
        · rw [stitchFetch_not_json svc r m opts ⟨τ, 0, 0⟩ h1 h2]
          simp [stitchAH, hna, stitchClassify, h1, h2]
    refine ⟨by rw [key σ, key σ'], ?_⟩
    have hevs : (stitchDo svc r m opts (n + 1) ⟨σ, 0, 0⟩).2.1 =
        [Ev.primaryCall r m none opts] := by rw [key σ]
    rw [hevs]
    rfl

theorem c5_amended_witness :
    ({ noAuth := true, refreshOnFailure := false } : DoOptions).noAuth = true ∧
    ({ noAuth := true, refreshOnFailure := false } : DoOptions).refreshOnFailure = false ∧
    (stitchDo invSvc "/x" "GET" { noAuth := true, refreshOnFailure := false } 1
      ⟨some wSession, 0, 0⟩).2 =
      (stitchDo invSvc "/x" "GET" { noAuth := true, refreshOnFailure := false } 1
        ⟨none, 0, 0⟩).2 ∧
    countRefresh (stitchDo invSvc "/x" "GET" { noAuth := true, refreshOnFailure := false } 1
      ⟨some wSession, 0, 0⟩).2.1 = 0 :=
  ⟨rfl, rfl,
    ((c5_noauth_amended invSvc "/x" "GET").2 _ 0 (some wSession) none rfl rfl).1,
    ((c5_noauth_amended invSvc "/x" "GET").2 _ 0 (some wSession) none rfl rfl).2⟩

/-- Claim C6 amended: for a non-2xx response with a structured JSON body
whose error code is not the invalid-session code, `StitchClient._do`
raises the structured error carrying the response and decoded body with
no retry, while `BaasClient._doAuthed` resolves with no value (the error
is silently swallowed); for a non-2xx response without a structured body
both raise an error carrying the raw status text, terminally. -/
theorem c6_amended (svc : Svc) (bsvc : BSvc) (r m : String) :
    (∀ (opts : DoOptions) (σ : Option Session) (n : Nat),
      (opts.noAuth = true ∨ ∃ sess, σ = some sess ∧
        (opts.useRefreshToken = true ∨ isAccessTokenExpired svc sess = false)) →
      ¬(200 ≤ (svc.primaryResp 0).status ∧ (svc.primaryResp 0).status < 300) →
      (svc.primaryResp 0).contentType = JSONTYPE →
      (svc.primaryResp 0).json.errorCode ≠ some ErrInvalidSession →
      stitchDo svc r m opts (n + 1) ⟨σ, 0, 0⟩ =
        (⟨σ, 0, 1⟩, [Ev.primaryCall r m (stitchAH opts σ) opts],
          some (.error (.stitchError (svc.primaryResp 0).json.error
            (svc.primaryResp 0).json.errorCode
            (svc.primaryResp 0) (svc.primaryResp 0).json)))) ∧
    (∀ (opts : DoOptions) (σ : Option Session) (n : Nat),
      (opts.noAuth = true ∨ ∃ sess, σ = some sess ∧
        (opts.useRefreshToken = true ∨ isAccessTokenExpired svc sess = false)) →
      ¬(200 ≤ (svc.primaryResp 0).status ∧ (svc.primaryResp 0).status < 300) →
      (svc.primaryResp 0).contentType ≠ JSONTYPE →
      stitchDo svc r m opts (n + 1) ⟨σ, 0, 0⟩ =
        (⟨σ, 0, 1⟩, [Ev.primaryCall r m (stitchAH opts σ) opts],
          some (.error (.statusTextError (svc.primaryResp 0).statusText
            (svc.primaryResp 0))))) ∧
    (∀ (b : Option String) (rofArg urtArg : Option Bool) (st : BSt) (a : BAuth) (n : Nat),
      st.storage.userAuth = some a →
      ¬(200 ≤ (bsvc.primaryResp st.nP).status ∧ (bsvc.primaryResp st.nP).status < 300) →
      (bsvc.primaryResp st.nP).contentType = "application/json" →
      (bsvc.primaryResp st.nP).json.errorCode ≠ some "InvalidSession" →
      doAuthed bsvc r m b rofArg urtArg (n + 1) st =
        ({ st with nP := st.nP + 1 },
         [BEv.primaryCall r m b (bBearer (urtArg.getD false) st a)
           (rofArg.getD true) (urtArg.getD false)],
         some (.ok none))) ∧
    (∀ (b : Option String) (rofArg urtArg : Option Bool) (st : BSt) (a : BAuth) (n : Nat),
      st.storage.userAuth = some a →
      ¬(200 ≤ (bsvc.primaryResp st.nP).status ∧ (bsvc.primaryResp st.nP).status < 300) →
      (bsvc.primaryResp st.nP).contentType ≠ "application/json" →
      doAuthed bsvc r m b rofArg urtArg (n + 1) st =
        ({ st with nP := st.nP + 1 },
         [BEv.primaryCall r m b (bBearer (urtArg.getD false) st a)
           (rofArg.getD true) (urtArg.getD false)],
         some (.error (.statusTextError (bsvc.primaryResp st.nP).statusText
           (bsvc.primaryResp st.nP))))) := by
  refine ⟨?_, ?_, ?_, ?_⟩
  · intro opts σ n hgate h1 h2 h3
    rw [stitchDo_fetch_step svc r m opts ⟨σ, 0, 0⟩ n hgate]
    rw [stitchFetch_json_other svc r m opts ⟨σ, 0, 0⟩ h1 h2 h3]
  · intro opts σ n hgate h1 h2
    rw [stitchDo_fetch_step svc r m opts ⟨σ, 0, 0⟩ n hgate]
    rw [stitchFetch_not_json svc r m opts ⟨σ, 0, 0⟩ h1 h2]
  · intro b rofArg urtArg st a n hua h1 h2 h3
    exact doAuthed_json_other bsvc r m b rofArg urtArg st a n hua h1 h2 h3
  · intro b rofArg urtArg st a n hua h1 h2
    exact doAuthed_not_json bsvc r m b rofArg urtArg st a n hua h1 h2

theorem c6_amended_witness :
    isAccessTokenExpired otherErrSvc wSession = false ∧
    ¬(200 ≤ (otherErrSvc.primaryResp 0).status ∧ (otherErrSvc.primaryResp 0).status < 300) ∧
    (otherErrSvc.primaryResp 0).contentType = JSONTYPE ∧
    (otherErrSvc.primaryResp 0).json.errorCode ≠ some ErrInvalidSession ∧
    stitchDo otherErrSvc "/x" "GET" {} 1 ⟨some wSession, 0, 0⟩ =
      (⟨some wSession, 0, 1⟩,
       [Ev.primaryCall "/x" "GET" (stitchAH {} (some wSession)) {}],
       some (.error (.stitchError "boom" (some "OtherError")
         otherErrorResponse otherErrorResponse.json))) :=
  ⟨rfl, by decide, rfl, by decide,
    (c6_amended otherErrSvc bOtherErrSvc "/x" "GET").1 {} (some wSession) 0
      (Or.inr ⟨wSession, rfl, Or.inr rfl⟩) (by decide) rfl (by decide)⟩

/-- Claim C7 amended: in `StitchClient._do` every primary call carries the
caller's resource, method and every option except `refreshOnFailure`, and
every primary call after a renewal ran with `refreshOnFailure = false`;
in `BaasClient._doAuthed` the retried call keeps only the resource, method
and body — its `refreshOnFailure` is false but its `useRefreshToken` is
reset to the default false instead of the caller's value. -/
theorem c7_amended (svc : Svc) (bsvc : BSvc) (r m : String) :
    (∀ (opts : DoOptions) (fuel : Nat) (st : St),
      flagsOk opts.refreshOnFailure (stitchDo svc r m opts fuel st).2.1 = true ∧
      ∀ e ∈ (stitchDo svc r m opts fuel st).2.1, evOk r m opts e) ∧
    (∀ (b : Option String) (rofArg urtArg : Option Bool) (fuel : Nat) (st : BSt),
      bFlagsOk (doAuthed bsvc r m b rofArg urtArg fuel st).2.1 = true ∧
      ∀ e ∈ (doAuthed bsvc r m b rofArg urtArg fuel st).2.1, bEvOk r m b e) :=
  ⟨fun opts fuel st =>
    ⟨stitchDo_flagsOk svc r m fuel opts st,
     fun e he => stitchDo_evOk svc r m fuel opts st e he⟩,
   fun b rofArg urtArg fuel st =>
    ⟨doAuthed_bFlagsOk bsvc r m b fuel rofArg urtArg st,
     fun e he => doAuthed_bEvOk bsvc r m b fuel rofArg urtArg st e he⟩⟩

theorem c7_amended_witness :
    Ev.primaryCall "/x" "GET" (some "Bearer A1") ({} : DoOptions) ∈
      (stitchDo invSvc "/x" "GET" {} 2 ⟨some wSession, 0, 0⟩).2.1 ∧
    evOk "/x" "GET" {} (Ev.primaryCall "/x" "GET" (some "Bearer A1") {}) :=
  ⟨by decide,
    ((c7_amended invSvc bInvThenOkSvc "/x" "GET").1 {} 2 ⟨some wSession, 0, 0⟩).2
      _ (by decide)⟩

/-- Claim C9 amended: per dispatch chain at most one refresh-triggered
retried primary call occurs — at most two primary calls ever, at most one
when the chain starts with `refreshOnFailure = false` — but the proactive
path alone bounds neither the renewal calls nor the recursion depth: the
depth-2 guarantee holds exactly when every successfully minted token is
non-expired. -/
theorem c9_amended (svc : Svc) (r m : String) :
    (∀ (opts : DoOptions) (fuel : Nat) (st : St),
      countPrimary (stitchDo svc r m opts fuel st).2.1 ≤ 2) ∧
    (∀ (opts : DoOptions) (fuel : Nat) (st : St), opts.refreshOnFailure = false →
      countPrimary (stitchDo svc r m opts fuel st).2.1 ≤ 1) ∧
    ((∀ k t, svc.refreshResp k = .success t → svc.expired t = false) →
      ∀ (opts : DoOptions) (st : St) (n : Nat),
        (stitchDo svc r m opts (n + 2) st).2.2.isSome = true) :=
  ⟨fun opts fuel st => (stitchDo_primary_bound svc r m fuel opts st).2,
   fun opts fuel st h => (stitchDo_primary_bound svc r m fuel opts st).1 h,
   fun h opts st n => stitchDo_fresh_settles svc r m h opts st n⟩

theorem c9_amended_witness :
    (∀ k t, wSvc.refreshResp k = .success t → wSvc.expired t = false) ∧
    (stitchDo wSvc "/x" "GET" {} 2 ⟨some wSession, 0, 0⟩).2.2.isSome = true ∧
    countPrimary (stitchDo wSvc "/x" "GET" { refreshOnFailure := false } 5
      ⟨some wSession, 0, 0⟩).2.1 ≤ 1 := by
  have hmint : ∀ k t, wSvc.refreshResp k = .success t → wSvc.expired t = false := by
    intro k t h
    simp only [wSvc] at h
    cases h
    decide
  exact ⟨hmint,
    (c9_amended wSvc "/x" "GET").2.2 hmint {} ⟨some wSession, 0, 0⟩ 0,
    (c9_amended wSvc "/x" "GET").2.1 { refreshOnFailure := false } 5
      ⟨some wSession, 0, 0⟩ rfl⟩

end Stitch
